import Mathlib

/-!
# Replay playback controller (`public/src/replay.js`)

A shallow embedding of the class `ReplayController`: its fields, the part of the
page it writes to, the interval timers of the browser it starts and stops, and
the calls it makes on the `ui` object, followed by theorems about them.

Conventions of the embedding.

* A method is a function on `State`.  A method that can let a `TypeError` escape
  returns an `Outcome`: the state as it stands when the method ends, and whether
  it ended by throwing.  Assignments made before a throw stay in the state.
* `loadReplayData` is `async`; everything after its two `await`s runs in one
  piece once the response has arrived, and that piece is what is modelled, with
  the result of the fetch as an argument.
* `executeEvent` is `async` and nobody awaits it.  The model runs one dispatch to
  its end before anything else happens and takes every call on `ui` to settle;
  a `TypeError` inside it rejects its promise and is not seen by the caller.
-/

namespace ReplayController

/-! ## JavaScript values -/

/-- A JavaScript number: a finite value, `NaN`, `Infinity` or `-Infinity`.
Finite values are rationals (every finite double is one); the sign of zero is
not tracked. -/
inductive JSNum where
  | fin (q : ℚ)
  | nan
  | posInf
  | negInf
  deriving DecidableEq

namespace JSNum

/-- `Math.floor(x)`. -/
def floor : JSNum → JSNum
  | fin q => fin (Int.floor q)
  | nan => nan
  | posInf => posInf
  | negInf => negInf

/-- The comparison `a < b` of two numbers (`false` as soon as one is `NaN`). -/
def lt : JSNum → JSNum → Bool
  | fin a, fin b => decide (a < b)
  | fin _, posInf => true
  | negInf, fin _ => true
  | negInf, posInf => true
  | _, _ => false

/-- The comparison `a >= b` of two numbers (`false` as soon as one is `NaN`). -/
def ge : JSNum → JSNum → Bool
  | fin a, fin b => decide (b ≤ a)
  | posInf, fin _ => true
  | posInf, posInf => true
  | posInf, negInf => true
  | fin _, negInf => true
  | negInf, negInf => true
  | _, _ => false

/-- The quotient `a / b` of two numbers. -/
def div : JSNum → JSNum → JSNum
  | fin a, fin b =>
    if b = 0 then (if a = 0 then nan else if 0 < a then posInf else negInf)
    else fin (a / b)
  | fin _, posInf => fin 0
  | fin _, negInf => fin 0
  | posInf, fin b => if 0 ≤ b then posInf else negInf
  | negInf, fin b => if 0 ≤ b then negInf else posInf
  | _, _ => nan

/-- The integer a number stands for, read off an integral finite number. -/
def toInt : JSNum → Int
  | fin q => Int.floor q
  | _ => 0

end JSNum

/-- A value found in a field of the fetched JSON, or handed to `ui`. -/
inductive JsVal where
  | undefined
  | null
  | bool (b : Bool)
  | num (n : JSNum)
  | str (s : String)
  | obj (ref : Nat)
  deriving DecidableEq

namespace JsVal

/-- Truthiness, as tested by `if (v)` and `v && w`. -/
def truthy : JsVal → Bool
  | undefined => false
  | null => false
  | bool b => b
  | num (JSNum.fin q) => decide (q ≠ 0)
  | num JSNum.nan => false
  | num _ => true
  | str s => decide (s ≠ "")
  | obj _ => true

/-- Strict equality `a === b`. -/
def strictEq : JsVal → JsVal → Bool
  | num JSNum.nan, _ => false
  | _, num JSNum.nan => false
  | a, b => decide (a = b)

end JsVal

/-! ## The replay data -/

/-- The `data` object of an event; a field that is missing is `undefined`. -/
structure EventData where
  day : JsVal
  phase : JsVal
  speak : JsVal
  thinking : JsVal
  vote : JsVal
  divine : JsVal
  kill : JsVal
  reason : JsVal
  cure : JsVal
  poison : JsVal
  deriving DecidableEq

/-- One entry of `events`.  `data = none` is an entry without a `data` object. -/
structure Event where
  type : JsVal
  player_idx : JsVal
  data : Option EventData
  deriving DecidableEq

/-- The object `/replay_data` answers with.  `events = none` is an answer
without an `events` array. -/
structure ReplayData where
  error : JsVal
  events : Option (List Event)
  total_duration : JsVal
  deriving DecidableEq

/-- What `await fetch(..)` followed by `await response.json()` comes to. -/
inductive FetchResult where
  | rejected
  | json (data : ReplayData)
  deriving DecidableEq

/-! ## Text, renderer calls, alerts, timers -/

/-- A piece of a template literal: literal text, an interpolated value, or an
interpolated integer. -/
inductive Piece where
  | lit (s : String)
  | val (v : JsVal)
  | int (z : Int)
  deriving DecidableEq

/-- A template literal, piece by piece. -/
abbrev Text := List Piece

/-- A call made on the `ui` object. -/
inductive UiCall where
  | showDay (day : JsVal)
  | showDayBackground
  | showNightBackground
  | showPlayer (idx : JsVal)
  | hidePlayer
  | speak (label : Text) (useBubble : Bool) (text : JsVal) (isThought : Option Bool)
  | showVote (voter : JsVal) (target : JsVal)
  | killPlayer (idx : JsVal)
  deriving DecidableEq

/-- A message box shown by `alert`, or the `console.error` of the `catch`. -/
inductive Notice where
  | loadError (reason : JsVal)
  | loadFailed
  | loaded (count : Nat) (total_duration : JsVal)
  | needData
  | finished
  deriving DecidableEq

/-- A running `setInterval`: its handle and its delay.  Handles are positive
integers, so a stored handle is truthy. -/
structure Timer where
  id : Nat
  interval : JSNum
  deriving DecidableEq

/-! ## State -/

/-- The controller, the elements of the page it writes to, the `ui` object and
the timers of the browser. -/
structure State where
  isReplaying : Bool
  isPlaying : Bool
  currentEventIndex : Int
  playbackSpeed : JSNum
  replayData : Option ReplayData
  baseInterval : JSNum
  intervalId : Option Nat
  /-- The flag `ui.display_thinking`. -/
  display_thinking : Bool
  /-- The calls made on `ui` so far, oldest first. -/
  calls : List UiCall
  /-- Whether `#replay-controls` is displayed. -/
  controlsShown : Bool
  /-- The label of `#replay-play-pause-btn`. -/
  playPauseText : String
  /-- The last value assigned to `#replay-progress`. -/
  progressValue : Int
  /-- The last maximum assigned to `#replay-progress`. -/
  progressMax : Int
  /-- The two numbers of `#replay-progress-text`. -/
  progressText : Int × Int
  /-- The content of `#replay-current-event`. -/
  currentEventText : Text
  /-- The message boxes shown so far, oldest first. -/
  notices : List Notice
  /-- The intervals that are running. -/
  timers : List Timer
  /-- The handle the next `setInterval` returns. -/
  nextTimerId : Nat
  deriving DecidableEq

/-- The state a method ends in, and whether it ended by throwing. -/
structure Outcome where
  state : State
  threw : Bool
  deriving DecidableEq

/-- The text the page shows before any replay is loaded. -/
def waitingText : Text := [Piece.lit "等待加载回放数据..."]

/-- The label of the button while paused. -/
def playLabel : String := "▶️ 播放"

/-- The label of the button while playing. -/
def pauseLabel : String := "⏸ 暂停"

/-- The state after `new ReplayController(ui)`. -/
def new (display_thinking : Bool) : State where
  isReplaying := false
  isPlaying := false
  currentEventIndex := 0
  playbackSpeed := JSNum.fin 1
  replayData := none
  baseInterval := JSNum.fin 1000
  intervalId := none
  display_thinking := display_thinking
  calls := []
  controlsShown := false
  playPauseText := playLabel
  progressValue := 0
  progressMax := 100
  progressText := (0, 0)
  currentEventText := waitingText
  notices := []
  timers := []
  nextTimerId := 1

/-! ## Browser primitives -/

/-- `clearInterval(id)`. -/
def clearInterval (id : Nat) (s : State) : State :=
  { s with timers := s.timers.filter (fun t => decide (t.id ≠ id)) }

/-- `setInterval(callback, interval)`: the new state and the handle. -/
def setInterval (interval : JSNum) (s : State) : State × Nat :=
  ({ s with timers := s.timers ++ [⟨s.nextTimerId, interval⟩],
            nextTimerId := s.nextTimerId + 1 }, s.nextTimerId)

/-- `alert(..)`. -/
def alert (n : Notice) (s : State) : State :=
  { s with notices := s.notices ++ [n] }

/-! ## The methods of `ReplayController` -/

/-- `showReplayControls()`. -/
def showReplayControls (s : State) : State :=
  { s with controlsShown := true }

/-- `hideReplayControls()`. -/
def hideReplayControls (s : State) : State :=
  { s with controlsShown := false }

/-- `updateProgressDisplay()`.  With `replayData` set but without an `events`
array, reading `events.length` throws after the slider has been written. -/
def updateProgressDisplay (s : State) : Outcome :=
  match s.replayData with
  | none => ⟨s, false⟩
  | some data =>
    let s1 := { s with progressValue := s.currentEventIndex }
    match data.events with
    | none => ⟨s1, true⟩
    | some events =>
      ⟨{ s1 with progressText := (s1.currentEventIndex + 1, events.length) }, false⟩

/-- The optional calls that show what a player thinks: `showPlayer`, `speak`
with `isThought = true`, `hidePlayer`, made when `cond && ui.display_thinking`
is truthy. -/
def thinkingCalls (cond : JsVal) (display_thinking : Bool) (player_idx : JsVal)
    (role : String) (text : JsVal) : List UiCall :=
  if cond.truthy && display_thinking then
    [UiCall.showPlayer player_idx,
     UiCall.speak [Piece.val player_idx, Piece.lit role] true text (some true),
     UiCall.hidePlayer]
  else []

/-- The word for the phase in a description: night if `phase === 'night'`,
day otherwise. -/
def phaseText (d : EventData) : Piece :=
  Piece.lit (if d.phase.strictEq (JsVal.str "night") then "夜晚" else "白天")

/-- The `switch` of `executeEvent`: the calls made on `ui`, in order, and the
description written at the end; `none` when reading a field of a missing
`event.data` throws, which every case that reads `data` does before its first
call. -/
def executeEvent.switch (display_thinking : Bool) (event : Event) :
    Option (List UiCall × Text) :=
  if event.type = JsVal.str "game_start" then
    event.data.map fun d =>
      ([UiCall.showDay d.day],
       [Piece.lit "🎮 游戏开始 - 第", Piece.val d.day, Piece.lit "天", phaseText d])
  else if event.type = JsVal.str "day_change" then
    event.data.map fun d =>
      ([if d.phase.strictEq (JsVal.str "day") then UiCall.showDayBackground
        else UiCall.showNightBackground],
       [Piece.lit "🌅 第", Piece.val d.day, Piece.lit "天", phaseText d, Piece.lit "开始"])
  else if event.type = JsVal.str "speak" then
    event.data.map fun d =>
      (thinkingCalls d.thinking display_thinking event.player_idx "号玩家 思考中" d.thinking ++
         [UiCall.speak [Piece.val event.player_idx, Piece.lit "号玩家"] true d.speak none],
       [Piece.lit "💬 ", Piece.val event.player_idx, Piece.lit "号玩家发言: \"",
        Piece.val d.speak, Piece.lit "\""])
  else if event.type = JsVal.str "vote" then
    event.data.map fun d =>
      (thinkingCalls d.thinking display_thinking event.player_idx "号玩家 思考中" d.thinking ++
         [UiCall.showVote event.player_idx d.vote],
       [Piece.lit "🗳️ ", Piece.val event.player_idx, Piece.lit "号玩家投票给 ",
        Piece.val d.vote, Piece.lit "号"])
  else if event.type = JsVal.str "divine" then
    event.data.map fun d =>
      (thinkingCalls d.thinking display_thinking event.player_idx "号预言家 思考中" d.thinking,
       [Piece.lit "🔮 ", Piece.val event.player_idx, Piece.lit "号预言家查验了",
        Piece.val d.divine, Piece.lit "号玩家"])
  else if event.type = JsVal.str "wolf_kill" then
    event.data.map fun d =>
      (thinkingCalls d.thinking display_thinking event.player_idx "号狼人 思考中" d.reason,
       [Piece.lit "🐺 ", Piece.val event.player_idx, Piece.lit "号狼人选择杀",
        Piece.val d.kill, Piece.lit "号玩家"])
  else if event.type = JsVal.str "witch_decision" then
    event.data.map fun d =>
      (thinkingCalls d.thinking display_thinking event.player_idx "号女巫 思考中" d.thinking,
       [Piece.lit "🧪 ", Piece.val event.player_idx, Piece.lit "号女巫决策: "] ++
       (if !d.cure.strictEq (JsVal.num (JSNum.fin (-1))) &&
            !d.cure.strictEq (JsVal.bool false) then
          [Piece.lit "救", Piece.val d.cure, Piece.lit "号 "] else []) ++
       (if !d.poison.strictEq (JsVal.num (JSNum.fin (-1))) then
          [Piece.lit "毒", Piece.val d.poison, Piece.lit "号 "] else []) ++
       (if d.cure.strictEq (JsVal.num (JSNum.fin (-1))) &&
            d.poison.strictEq (JsVal.num (JSNum.fin (-1))) then
          [Piece.lit "不使用技能 "] else []))
  else if event.type = JsVal.str "kill" then
    some ([UiCall.killPlayer event.player_idx],
          [Piece.lit "💀 ", Piece.val event.player_idx, Piece.lit "号玩家被杀"])
  else if event.type = JsVal.str "execute" then
    some ([UiCall.killPlayer event.player_idx],
          [Piece.lit "⚖️ ", Piece.val event.player_idx, Piece.lit "号玩家被处决"])
  else
    some ([], [Piece.lit "📝 ", Piece.val event.type, Piece.lit ": 玩家",
               Piece.val event.player_idx])

/-- `executeEvent(event)`, with `event = none` for `undefined`.  `threw` tells
that the promise was rejected: by reading `event.type` of `undefined`, or by the
`switch`; nothing has been called or written then. -/
def executeEvent (event : Option Event) (s : State) : Outcome :=
  match event with
  | none => ⟨s, true⟩
  | some event =>
    match executeEvent.switch s.display_thinking event with
    | none => ⟨s, true⟩
    | some (calls, eventDescription) =>
      ⟨{ s with calls := s.calls ++ calls, currentEventText := eventDescription }, false⟩

/-- The element `events[i]` of an array, `undefined` outside of it. -/
def eventAt (events : List Event) (i : Int) : Option Event :=
  if 0 ≤ i then events.get? i.toNat else none

/-- The body of the `catch` of `loadReplayData`. -/
def loadCatch (s : State) : State :=
  alert Notice.loadFailed s

/-- `loadReplayData()`, from the moment the fetch has settled with `r`. -/
def loadReplayData (r : FetchResult) (s : State) : State :=
  match r with
  | FetchResult.rejected => loadCatch s
  | FetchResult.json data =>
    if data.error.truthy then
      alert (Notice.loadError data.error) s
    else
      let s1 := { s with replayData := some data, currentEventIndex := 0 }
      let o := updateProgressDisplay s1
      if o.threw then loadCatch o.state
      else
        let s2 := showReplayControls o.state
        match data.events with
        | none => loadCatch s2
        | some events =>
          alert (Notice.loaded events.length data.total_duration)
            { s2 with progressMax := (events.length : Int) - 1 }

/-- `resetReplay()`. -/
def resetReplay (s : State) : State :=
  let s1 := { s with isReplaying := false, isPlaying := false,
                     currentEventIndex := 0, replayData := none }
  let s2 :=
    match s1.intervalId with
    | some id => { clearInterval id s1 with intervalId := none }
    | none => s1
  let s3 := (updateProgressDisplay s2).state
  { s3 with currentEventText := waitingText, playPauseText := playLabel }

/-- `startPlayback()`. -/
def startPlayback (s : State) : State :=
  let s1 :=
    match s.intervalId with
    | some id => clearInterval id s
    | none => s
  let interval := s1.baseInterval.div s1.playbackSpeed
  let r := setInterval interval s1
  { r.1 with intervalId := some r.2 }

/-- `pausePlayback()`. -/
def pausePlayback (s : State) : State :=
  match s.intervalId with
  | some id => { clearInterval id s with intervalId := none }
  | none => s

/-- `togglePlayPause()`. -/
def togglePlayPause (s : State) : Outcome :=
  match s.replayData with
  | none => ⟨alert Notice.needData s, false⟩
  | some data =>
    match data.events with
    | none => ⟨s, true⟩
    | some events =>
      if events.length = 0 then ⟨alert Notice.needData s, false⟩
      else
        let s1 := { s with isReplaying := true, isPlaying := !s.isPlaying }
        if s1.isPlaying then
          ⟨{ startPlayback s1 with playPauseText := pauseLabel }, false⟩
        else
          ⟨{ pausePlayback s1 with playPauseText := playLabel }, false⟩

/-- `previousEvent()`. -/
def previousEvent (s : State) : Outcome :=
  match s.replayData with
  | none => ⟨s, false⟩
  | some data =>
    match data.events with
    | none => ⟨s, true⟩
    | some events =>
      if events.length = 0 then ⟨s, false⟩
      else if s.currentEventIndex > 0 then
        let s1 := { s with currentEventIndex := s.currentEventIndex - 1 }
        let s2 := (executeEvent (eventAt events s1.currentEventIndex) s1).state
        updateProgressDisplay s2
      else ⟨s, false⟩

/-- `nextEvent()`. -/
def nextEvent (s : State) : Outcome :=
  match s.replayData with
  | none => ⟨s, false⟩
  | some data =>
    match data.events with
    | none => ⟨s, true⟩
    | some events =>
      if events.length = 0 then ⟨s, false⟩
      else if s.currentEventIndex < (events.length : Int) - 1 then
        let s1 := { s with currentEventIndex := s.currentEventIndex + 1 }
        let s2 := (executeEvent (eventAt events s1.currentEventIndex) s1).state
        updateProgressDisplay s2
      else ⟨s, false⟩

/-- `playNextEvent()`, the callback of the interval. -/
def playNextEvent (s : State) : Outcome :=
  match s.replayData with
  | none => ⟨s, true⟩
  | some data =>
    match data.events with
    | none => ⟨s, true⟩
    | some events =>
      if s.currentEventIndex ≥ (events.length : Int) - 1 then
        let s1 := pausePlayback s
        ⟨alert Notice.finished { s1 with isPlaying := false, playPauseText := playLabel },
          false⟩
      else nextEvent s

/-- `seekTo(progressValue)`. -/
def seekTo (progressValue : JSNum) (s : State) : Outcome :=
  match s.replayData with
  | none => ⟨s, false⟩
  | some data =>
    match data.events with
    | none => ⟨s, true⟩
    | some events =>
      if events.length = 0 then ⟨s, false⟩
      else
        let targetIndex := progressValue.floor
        if targetIndex.ge (JSNum.fin 0) && targetIndex.lt (JSNum.fin events.length) then
          let s1 := { s with currentEventIndex := targetIndex.toInt }
          let s2 := (executeEvent (eventAt events s1.currentEventIndex) s1).state
          updateProgressDisplay s2
        else ⟨s, false⟩

/-- `setSpeed(speed)`. -/
def setSpeed (speed : JSNum) (s : State) : State :=
  let s1 := { s with playbackSpeed := speed }
  if s1.isPlaying then startPlayback (pausePlayback s1) else s1

/-! ## Commands and reachable states -/

/-- What can happen to a controller: a click on one of its controls, a call of
one of its methods from the page, the arrival of a fetched answer, or a tick of
the interval. -/
inductive Command where
  | load (r : FetchResult)
  | resetReplay
  | togglePlayPause
  | tick
  | previousEvent
  | nextEvent
  | seekTo (progressValue : JSNum)
  | setSpeed (speed : JSNum)
  | showReplayControls
  | hideReplayControls

/-- A tick of the interval: its callback runs `playNextEvent` if an interval is
running, and nothing happens otherwise. -/
def tick (s : State) : State :=
  if s.timers = [] then s else (playNextEvent s).state

/-- The state after a command.  An error that escapes a method ends the handler
that called it and leaves the state as the method left it. -/
def step (c : Command) (s : State) : State :=
  match c with
  | Command.load r => loadReplayData r s
  | Command.resetReplay => resetReplay s
  | Command.togglePlayPause => (togglePlayPause s).state
  | Command.tick => tick s
  | Command.previousEvent => (previousEvent s).state
  | Command.nextEvent => (nextEvent s).state
  | Command.seekTo v => (seekTo v s).state
  | Command.setSpeed v => setSpeed v s
  | Command.showReplayControls => showReplayControls s
  | Command.hideReplayControls => hideReplayControls s

/-- The state after a list of commands, first command first. -/
def run (cs : List Command) (s : State) : State :=
  cs.foldl (fun st c => step c st) s

/-- The states a constructed controller can get into. -/
inductive Reachable : State → Prop where
  | new (display_thinking : Bool) : Reachable (new display_thinking)
  | step (c : Command) {s : State} : Reachable s → Reachable (step c s)

/-! ## Predicates on states -/

/-- A log is loaded: `replayData` is set and its `events` array is not empty. -/
def Loaded (s : State) (events : List Event) : Prop :=
  ∃ data, s.replayData = some data ∧ data.events = some events ∧ events ≠ []

/-- The index points into the log, if one is loaded. -/
def IndexInBounds (s : State) : Prop :=
  ∀ events, Loaded s events →
    0 ≤ s.currentEventIndex ∧ s.currentEventIndex < (events.length : Int)

/-- The play flag and the interval agree: while playing, the stored handle is
that of the one running interval; while not playing, no handle is stored and no
interval runs. -/
def TickerAgrees (s : State) : Prop :=
  (s.isPlaying = true →
    ∃ id interval, s.intervalId = some id ∧ s.timers = [⟨id, interval⟩]) ∧
  (s.isPlaying = false → s.intervalId = none ∧ s.timers = [])

/-! ## A sample replay -/

/-- An `event.data` with no field set. -/
def noData : EventData :=
  { day := JsVal.undefined, phase := JsVal.undefined, speak := JsVal.undefined,
    thinking := JsVal.undefined, vote := JsVal.undefined, divine := JsVal.undefined,
    kill := JsVal.undefined, reason := JsVal.undefined, cure := JsVal.undefined,
    poison := JsVal.undefined }

/-- The event `game_start` of day 1, at night. -/
def sampleStart : Event :=
  { type := JsVal.str "game_start", player_idx := JsVal.undefined,
    data := some { noData with day := JsVal.num (JSNum.fin 1), phase := JsVal.str "night" } }

/-- Player 2 says "hi". -/
def sampleSpeak : Event :=
  { type := JsVal.str "speak", player_idx := JsVal.num (JSNum.fin 2),
    data := some { noData with speak := JsVal.str "hi" } }

/-- Player 2 is killed. -/
def sampleKill : Event :=
  { type := JsVal.str "kill", player_idx := JsVal.num (JSNum.fin 2), data := some noData }

/-- The three events of the sample replay. -/
def sampleEvents : List Event := [sampleStart, sampleSpeak, sampleKill]

/-- An answer of `/replay_data` with the three sample events. -/
def sampleData : ReplayData :=
  { error := JsVal.undefined, events := some sampleEvents,
    total_duration := JsVal.num (JSNum.fin 12) }

/-- A controller that has loaded the sample replay. -/
def sampleLoaded : State :=
  run [Command.load (FetchResult.json sampleData)] (new true)

/-- A controller that has loaded the sample replay and is playing it. -/
def samplePlaying : State :=
  run [Command.load (FetchResult.json sampleData), Command.togglePlayPause] (new true)

/-- A controller that has loaded the sample replay, sought to 2.5 and to `NaN`,
and stepped forward. -/
def sampleSeeked : State :=
  run [Command.load (FetchResult.json sampleData), Command.seekTo (JSNum.fin (mkRat 5 2)),
    Command.seekTo JSNum.nan, Command.nextEvent] (new true)

/-- A controller that has loaded the sample replay and sought to index 1. -/
def sampleAtOne : State :=
  run [Command.load (FetchResult.json sampleData), Command.seekTo (JSNum.fin 1)] (new true)

/-- An answer of `/replay_data` whose `error` field is `null`, with one event. -/
def nullErrorData : ReplayData :=
  { error := JsVal.null, events := some [sampleStart], total_duration := JsVal.num (JSNum.fin 3) }

/-- An answer of `/replay_data` that is the empty object. -/
def emptyObject : ReplayData :=
  { error := JsVal.undefined, events := none, total_duration := JsVal.undefined }

/-- An answer of `/replay_data` that reports an error. -/
def errorData : ReplayData :=
  { error := JsVal.str "No replay data available", events := none,
    total_duration := JsVal.undefined }

/-- A controller that has loaded the sample replay and sought to index 2. -/
def sampleAtTwo : State :=
  run [Command.load (FetchResult.json sampleData), Command.seekTo (JSNum.fin 2)] (new true)

/-- A controller that has loaded the sample replay, sought to its last index and
is playing. -/
def samplePlayingAtEnd : State :=
  run [Command.load (FetchResult.json sampleData), Command.seekTo (JSNum.fin 2),
    Command.togglePlayPause] (new true)

/-- The cadence of the running intervals: the base interval is the 1000 of the
constructor, and every running interval was started with delay
`baseInterval / playbackSpeed`, for the speed the controller holds now. -/
def Cadence (s : State) : Prop :=
  s.baseInterval = JSNum.fin 1000 ∧
  ∀ t ∈ s.timers, t.interval = s.baseInterval.div s.playbackSpeed

/-- A controller that has loaded the sample replay, been set to speed 2 and is
playing. -/
def samplePlayingDouble : State :=
  run [Command.load (FetchResult.json sampleData), Command.setSpeed (JSNum.fin 2),
    Command.togglePlayPause] (new true)

/-- An answer of `/replay_data` with an empty `events` array. -/
def emptyLogData : ReplayData :=
  { error := JsVal.undefined, events := some [], total_duration := JsVal.num (JSNum.fin 0) }

/-- A controller that has loaded an empty log. -/
def sampleEmptyLoaded : State :=
  run [Command.load (FetchResult.json emptyLogData)] (new true)

/-- An event of a type the `switch` has no case for. -/
def sampleUnknown : Event :=
  { type := JsVal.str "sheriff_election", player_idx := JsVal.num (JSNum.fin 4), data := none }

/-- Player 2 says "hi"; the `thinking` field is there and holds the empty
string. -/
def speakEmptyThinking : Event :=
  { type := JsVal.str "speak", player_idx := JsVal.num (JSNum.fin 2),
    data := some { noData with speak := JsVal.str "hi", thinking := JsVal.str "" } }

/-- Player 2 says "hi" after thinking "hm". -/
def speakThinking : Event :=
  { type := JsVal.str "speak", player_idx := JsVal.num (JSNum.fin 2),
    data := some { noData with speak := JsVal.str "hi", thinking := JsVal.str "hm" } }

/-- Wolf 3 kills player 5 and gives a reason; there is no `thinking` field. -/
def wolfKillReason : Event :=
  { type := JsVal.str "wolf_kill", player_idx := JsVal.num (JSNum.fin 3),
    data := some { noData with kill := JsVal.num (JSNum.fin 5),
                               reason := JsVal.str "5 suspects me" } }

/-- Wolf 3 kills player 5 with a `thinking` field and no `reason` field. -/
def wolfKillThinking : Event :=
  { type := JsVal.str "wolf_kill", player_idx := JsVal.num (JSNum.fin 3),
    data := some { noData with kill := JsVal.num (JSNum.fin 5),
                               thinking := JsVal.str "5 suspects me" } }

/-- A vote without `player_idx` and with an empty `data` object. -/
def voteBare : Event :=
  { type := JsVal.str "vote", player_idx := JsVal.undefined, data := some noData }

/-! # Theorems -/

/-! ## What `executeEvent` and `updateProgressDisplay` leave alone -/

theorem executeEvent_state (event : Option Event) (s : State) :
    ∃ c t, (executeEvent event s).state = { s with calls := c, currentEventText := t } := by
  unfold executeEvent
  repeat' split
  all_goals exact ⟨_, _, rfl⟩

theorem updateProgressDisplay_state (s : State) :
    ∃ v t, (updateProgressDisplay s).state =
      { s with progressValue := v, progressText := t } := by
  unfold updateProgressDisplay
  repeat' split
  all_goals exact ⟨_, _, rfl⟩

@[simp] theorem executeEvent_isReplaying (event : Option Event) (s : State) :
    (executeEvent event s).state.isReplaying = s.isReplaying := by
  obtain ⟨c, t, h⟩ := executeEvent_state event s
  rw [h]

@[simp] theorem executeEvent_isPlaying (event : Option Event) (s : State) :
    (executeEvent event s).state.isPlaying = s.isPlaying := by
  obtain ⟨c, t, h⟩ := executeEvent_state event s
  rw [h]

@[simp] theorem executeEvent_currentEventIndex (event : Option Event) (s : State) :
    (executeEvent event s).state.currentEventIndex = s.currentEventIndex := by
  obtain ⟨c, t, h⟩ := executeEvent_state event s
  rw [h]

@[simp] theorem executeEvent_playbackSpeed (event : Option Event) (s : State) :
    (executeEvent event s).state.playbackSpeed = s.playbackSpeed := by
  obtain ⟨c, t, h⟩ := executeEvent_state event s
  rw [h]

@[simp] theorem executeEvent_replayData (event : Option Event) (s : State) :
    (executeEvent event s).state.replayData = s.replayData := by
  obtain ⟨c, t, h⟩ := executeEvent_state event s
  rw [h]

@[simp] theorem executeEvent_baseInterval (event : Option Event) (s : State) :
    (executeEvent event s).state.baseInterval = s.baseInterval := by
  obtain ⟨c, t, h⟩ := executeEvent_state event s
  rw [h]

@[simp] theorem executeEvent_intervalId (event : Option Event) (s : State) :
    (executeEvent event s).state.intervalId = s.intervalId := by
  obtain ⟨c, t, h⟩ := executeEvent_state event s
  rw [h]

@[simp] theorem executeEvent_display_thinking (event : Option Event) (s : State) :
    (executeEvent event s).state.display_thinking = s.display_thinking := by
  obtain ⟨c, t, h⟩ := executeEvent_state event s
  rw [h]

@[simp] theorem executeEvent_controlsShown (event : Option Event) (s : State) :
    (executeEvent event s).state.controlsShown = s.controlsShown := by
  obtain ⟨c, t, h⟩ := executeEvent_state event s
  rw [h]

@[simp] theorem executeEvent_playPauseText (event : Option Event) (s : State) :
    (executeEvent event s).state.playPauseText = s.playPauseText := by
  obtain ⟨c, t, h⟩ := executeEvent_state event s
  rw [h]

@[simp] theorem executeEvent_progressValue (event : Option Event) (s : State) :
    (executeEvent event s).state.progressValue = s.progressValue := by
  obtain ⟨c, t, h⟩ := executeEvent_state event s
  rw [h]

@[simp] theorem executeEvent_progressMax (event : Option Event) (s : State) :
    (executeEvent event s).state.progressMax = s.progressMax := by
  obtain ⟨c, t, h⟩ := executeEvent_state event s
  rw [h]

@[simp] theorem executeEvent_progressText (event : Option Event) (s : State) :
    (executeEvent event s).state.progressText = s.progressText := by
  obtain ⟨c, t, h⟩ := executeEvent_state event s
  rw [h]

@[simp] theorem executeEvent_notices (event : Option Event) (s : State) :
    (executeEvent event s).state.notices = s.notices := by
  obtain ⟨c, t, h⟩ := executeEvent_state event s
  rw [h]

@[simp] theorem executeEvent_timers (event : Option Event) (s : State) :
    (executeEvent event s).state.timers = s.timers := by
  obtain ⟨c, t, h⟩ := executeEvent_state event s
  rw [h]

@[simp] theorem executeEvent_nextTimerId (event : Option Event) (s : State) :
    (executeEvent event s).state.nextTimerId = s.nextTimerId := by
  obtain ⟨c, t, h⟩ := executeEvent_state event s
  rw [h]

@[simp] theorem updateProgressDisplay_isReplaying (s : State) :
    (updateProgressDisplay s).state.isReplaying = s.isReplaying := by
  obtain ⟨v, t, h⟩ := updateProgressDisplay_state s
  rw [h]

@[simp] theorem updateProgressDisplay_isPlaying (s : State) :
    (updateProgressDisplay s).state.isPlaying = s.isPlaying := by
  obtain ⟨v, t, h⟩ := updateProgressDisplay_state s
  rw [h]

@[simp] theorem updateProgressDisplay_currentEventIndex (s : State) :
    (updateProgressDisplay s).state.currentEventIndex = s.currentEventIndex := by
  obtain ⟨v, t, h⟩ := updateProgressDisplay_state s
  rw [h]

@[simp] theorem updateProgressDisplay_playbackSpeed (s : State) :
    (updateProgressDisplay s).state.playbackSpeed = s.playbackSpeed := by
  obtain ⟨v, t, h⟩ := updateProgressDisplay_state s
  rw [h]

@[simp] theorem updateProgressDisplay_replayData (s : State) :
    (updateProgressDisplay s).state.replayData = s.replayData := by
  obtain ⟨v, t, h⟩ := updateProgressDisplay_state s
  rw [h]

@[simp] theorem updateProgressDisplay_baseInterval (s : State) :
    (updateProgressDisplay s).state.baseInterval = s.baseInterval := by
  obtain ⟨v, t, h⟩ := updateProgressDisplay_state s
  rw [h]

@[simp] theorem updateProgressDisplay_intervalId (s : State) :
    (updateProgressDisplay s).state.intervalId = s.intervalId := by
  obtain ⟨v, t, h⟩ := updateProgressDisplay_state s
  rw [h]

@[simp] theorem updateProgressDisplay_display_thinking (s : State) :
    (updateProgressDisplay s).state.display_thinking = s.display_thinking := by
  obtain ⟨v, t, h⟩ := updateProgressDisplay_state s
  rw [h]

@[simp] theorem updateProgressDisplay_calls (s : State) :
    (updateProgressDisplay s).state.calls = s.calls := by
  obtain ⟨v, t, h⟩ := updateProgressDisplay_state s
  rw [h]

@[simp] theorem updateProgressDisplay_controlsShown (s : State) :
    (updateProgressDisplay s).state.controlsShown = s.controlsShown := by
  obtain ⟨v, t, h⟩ := updateProgressDisplay_state s
  rw [h]

@[simp] theorem updateProgressDisplay_playPauseText (s : State) :
    (updateProgressDisplay s).state.playPauseText = s.playPauseText := by
  obtain ⟨v, t, h⟩ := updateProgressDisplay_state s
  rw [h]

@[simp] theorem updateProgressDisplay_progressMax (s : State) :
    (updateProgressDisplay s).state.progressMax = s.progressMax := by
  obtain ⟨v, t, h⟩ := updateProgressDisplay_state s
  rw [h]

@[simp] theorem updateProgressDisplay_currentEventText (s : State) :
    (updateProgressDisplay s).state.currentEventText = s.currentEventText := by
  obtain ⟨v, t, h⟩ := updateProgressDisplay_state s
  rw [h]

@[simp] theorem updateProgressDisplay_notices (s : State) :
    (updateProgressDisplay s).state.notices = s.notices := by
  obtain ⟨v, t, h⟩ := updateProgressDisplay_state s
  rw [h]

@[simp] theorem updateProgressDisplay_timers (s : State) :
    (updateProgressDisplay s).state.timers = s.timers := by
  obtain ⟨v, t, h⟩ := updateProgressDisplay_state s
  rw [h]

@[simp] theorem updateProgressDisplay_nextTimerId (s : State) :
    (updateProgressDisplay s).state.nextTimerId = s.nextTimerId := by
  obtain ⟨v, t, h⟩ := updateProgressDisplay_state s
  rw [h]

theorem updateProgressDisplay_threw (s : State) (data : ReplayData) (events : List Event)
    (hd : s.replayData = some data) (he : data.events = some events) :
    (updateProgressDisplay s).threw = false := by
  simp [updateProgressDisplay, hd, he]

theorem IndexInBounds.of_same_log {s t : State} (h : IndexInBounds s)
    (hd : t.replayData = s.replayData) (hi : t.currentEventIndex = s.currentEventIndex) :
    IndexInBounds t := by
  intro events hl
  unfold Loaded at hl
  rw [hd] at hl
  rw [hi]
  exact h events hl

theorem IndexInBounds.of_index {s : State} (data : ReplayData)
    (hd : s.replayData = some data)
    (hi : ∀ events, data.events = some events → events ≠ [] →
      0 ≤ s.currentEventIndex ∧ s.currentEventIndex < (events.length : Int)) :
    IndexInBounds s := by
  intro events hl
  obtain ⟨data', hd', he, hne⟩ := hl
  rw [hd] at hd'
  cases hd'
  exact hi events he hne

theorem pausePlayback_replayData (s : State) : (pausePlayback s).replayData = s.replayData := by
  unfold pausePlayback; split <;> rfl

theorem pausePlayback_currentEventIndex (s : State) :
    (pausePlayback s).currentEventIndex = s.currentEventIndex := by
  unfold pausePlayback; split <;> rfl

theorem startPlayback_replayData (s : State) : (startPlayback s).replayData = s.replayData := by
  unfold startPlayback; split <;> rfl

theorem startPlayback_currentEventIndex (s : State) :
    (startPlayback s).currentEventIndex = s.currentEventIndex := by
  unfold startPlayback; split <;> rfl

theorem floor_guard (q : ℚ) (n : Nat)
    (h : ((JSNum.fin q).floor.ge (JSNum.fin 0) && (JSNum.fin q).floor.lt (JSNum.fin n)) = true) :
    0 ≤ Int.floor q ∧ Int.floor q < (n : Int) := by
  simp only [JSNum.floor, JSNum.ge, JSNum.lt, Bool.and_eq_true, decide_eq_true_eq] at h
  obtain ⟨h0, h1⟩ := h
  constructor
  · exact_mod_cast h0
  · exact_mod_cast h1

theorem nextEvent_inBounds (s : State) (h : IndexInBounds s) :
    IndexInBounds (nextEvent s).state := by
  unfold nextEvent
  split
  · exact h
  · rename_i data hd
    split
    · exact h
    · rename_i events he
      split
      · exact h
      · split
        · rename_i hne hlt
          apply IndexInBounds.of_index data
          · simpa using hd
          · intro events' he' _
            rw [he] at he'
            cases he'
            have h0 := (h events ⟨data, hd, he, by intro hc; simp [hc] at hne⟩).1
            simp only [updateProgressDisplay_currentEventIndex, executeEvent_currentEventIndex]
            constructor <;> omega
        · exact h


theorem previousEvent_inBounds (s : State) (h : IndexInBounds s) :
    IndexInBounds (previousEvent s).state := by
  unfold previousEvent
  split
  · exact h
  · rename_i data hd
    split
    · exact h
    · rename_i events he
      split
      · exact h
      · split
        · rename_i hne hlt
          apply IndexInBounds.of_index data
          · simpa using hd
          · intro events' he' _
            rw [he] at he'
            cases he'
            have h0 := (h events ⟨data, hd, he, by intro hc; simp [hc] at hne⟩).2
            simp only [updateProgressDisplay_currentEventIndex, executeEvent_currentEventIndex]
            constructor <;> omega
        · exact h

theorem seekTo_inBounds (v : JSNum) (s : State) (h : IndexInBounds s) :
    IndexInBounds (seekTo v s).state := by
  unfold seekTo
  split
  · exact h
  · rename_i data hd
    split
    · exact h
    · rename_i events he
      split
      · exact h
      · dsimp only
        split
        · rename_i hne hg
          apply IndexInBounds.of_index data
          · simpa using hd
          · intro events' he' _
            rw [he] at he'
            cases he'
            simp only [updateProgressDisplay_currentEventIndex, executeEvent_currentEventIndex]
            cases v with
            | fin q => exact floor_guard q _ hg
            | nan => simp [JSNum.floor, JSNum.ge] at hg
            | posInf => simp [JSNum.floor, JSNum.lt] at hg
            | negInf => simp [JSNum.floor, JSNum.ge] at hg
        · exact h

theorem playNextEvent_inBounds (s : State) (h : IndexInBounds s) :
    IndexInBounds (playNextEvent s).state := by
  unfold playNextEvent
  split
  · exact h
  · split
    · exact h
    · split
      · exact h.of_same_log (pausePlayback_replayData s) (pausePlayback_currentEventIndex s)
      · exact nextEvent_inBounds s h

theorem togglePlayPause_inBounds (s : State) (h : IndexInBounds s) :
    IndexInBounds (togglePlayPause s).state := by
  unfold togglePlayPause
  split
  · exact h.of_same_log rfl rfl
  · split
    · exact h
    · split
      · exact h.of_same_log rfl rfl
      · dsimp only
        split
        · exact h.of_same_log (startPlayback_replayData _) (startPlayback_currentEventIndex _)
        · exact h.of_same_log (pausePlayback_replayData _) (pausePlayback_currentEventIndex _)

theorem setSpeed_inBounds (v : JSNum) (s : State) (h : IndexInBounds s) :
    IndexInBounds (setSpeed v s) := by
  unfold setSpeed
  dsimp only
  split
  · refine h.of_same_log ?_ ?_
    · rw [startPlayback_replayData, pausePlayback_replayData]
    · rw [startPlayback_currentEventIndex, pausePlayback_currentEventIndex]
  · exact h.of_same_log rfl rfl

theorem resetReplay_replayData (s : State) : (resetReplay s).replayData = none := by
  unfold resetReplay
  cases s.intervalId <;> simp [clearInterval]

theorem resetReplay_inBounds (s : State) : IndexInBounds (resetReplay s) := by
  intro events hl
  obtain ⟨data, hd, _⟩ := hl
  rw [resetReplay_replayData] at hd
  cases hd

theorem loadReplayData_json (data : ReplayData) (s : State)
    (h : data.error.truthy = false) :
    let t := loadReplayData (FetchResult.json data) s
    t.replayData = some data ∧ t.currentEventIndex = 0 ∧ t.isPlaying = s.isPlaying ∧
    t.intervalId = s.intervalId ∧ t.timers = s.timers ∧ t.nextTimerId = s.nextTimerId ∧
    t.playbackSpeed = s.playbackSpeed ∧ t.baseInterval = s.baseInterval ∧
    t.calls = s.calls ∧ t.currentEventText = s.currentEventText := by
  cases he : data.events <;>
    simp [loadReplayData, h, updateProgressDisplay, he, loadCatch, alert, showReplayControls]

theorem loadReplayData_failed (r : FetchResult) (s : State)
    (h : r = FetchResult.rejected ∨ ∃ data, r = FetchResult.json data ∧ data.error.truthy = true) :
    ∃ n, loadReplayData r s = { s with notices := s.notices ++ [n] } := by
  rcases h with h | ⟨data, h, ht⟩
  · subst h
    exact ⟨Notice.loadFailed, rfl⟩
  · subst h
    exact ⟨Notice.loadError data.error, by simp [loadReplayData, ht, alert]⟩

theorem loadReplayData_inBounds (r : FetchResult) (s : State) (h : IndexInBounds s) :
    IndexInBounds (loadReplayData r s) := by
  cases r with
  | rejected => exact h.of_same_log rfl rfl
  | json data =>
    cases ht : data.error.truthy with
    | true =>
      obtain ⟨n, hn⟩ := loadReplayData_failed (FetchResult.json data) s (Or.inr ⟨data, rfl, ht⟩)
      rw [hn]
      exact h.of_same_log rfl rfl
    | false =>
      obtain ⟨hd, hi, _⟩ := loadReplayData_json data s ht
      apply IndexInBounds.of_index data hd
      intro events _ hne
      rw [hi]
      have := List.length_pos.mpr hne
      constructor <;> omega

theorem step_inBounds (c : Command) (s : State) (h : IndexInBounds s) :
    IndexInBounds (step c s) := by
  cases c with
  | load r => exact loadReplayData_inBounds r s h
  | resetReplay => exact resetReplay_inBounds s
  | togglePlayPause => exact togglePlayPause_inBounds s h
  | tick =>
    show IndexInBounds (tick s)
    unfold tick
    split
    · exact h
    · exact playNextEvent_inBounds s h
  | previousEvent => exact previousEvent_inBounds s h
  | nextEvent => exact nextEvent_inBounds s h
  | seekTo v => exact seekTo_inBounds v s h
  | setSpeed v => exact setSpeed_inBounds v s h
  | showReplayControls => exact h.of_same_log rfl rfl
  | hideReplayControls => exact h.of_same_log rfl rfl

theorem new_inBounds (b : Bool) : IndexInBounds (new b) := by
  intro events hl
  obtain ⟨data, hd, _⟩ := hl
  cases hd

theorem Reachable.inBounds {s : State} (h : Reachable s) : IndexInBounds s := by
  induction h with
  | new b => exact new_inBounds b
  | step c _ ih => exact step_inBounds c _ ih

/-! ## The index stays inside the log (C1) and `seekTo` (C2, C3) -/

theorem sampleLoaded_loaded : Loaded sampleLoaded sampleEvents :=
  ⟨sampleData, by decide, rfl, by decide⟩

theorem eventAt_natCast (events : List Event) (i : Nat) :
    eventAt events (i : Int) = events.get? i := by
  simp [eventAt]

/-- C1. In every state a constructed controller can reach by loads that succeed
or fail, play and pause, ticks, steps, seeks to any number, speed changes and
resets, the index lies in `[0, events.length)` whenever a non-empty log is
loaded. -/
theorem C1_index_in_bounds (s : State) (h : Reachable s) (events : List Event)
    (hl : Loaded s events) :
    0 ≤ s.currentEventIndex ∧ s.currentEventIndex < (events.length : Int) :=
  h.inBounds events hl

theorem Reachable.run {s : State} (h : Reachable s) (cs : List Command) :
    Reachable (run cs s) := by
  induction cs generalizing s with
  | nil => exact h
  | cons c cs ih => exact ih (Reachable.step c h)

theorem C1_index_in_bounds_witness :
    Reachable sampleSeeked ∧ Loaded sampleSeeked sampleEvents ∧
      (0 ≤ sampleSeeked.currentEventIndex ∧
       sampleSeeked.currentEventIndex < (sampleEvents.length : Int)) :=
  ⟨(Reachable.new true).run _, ⟨sampleData, by decide, rfl, by decide⟩,
    C1_index_in_bounds sampleSeeked ((Reachable.new true).run _) sampleEvents
      ⟨sampleData, by decide, rfl, by decide⟩⟩

/-- C2. With a non-empty log loaded and `i` an index of it, `seekTo(i)` sets the
index to `i`, runs `executeEvent` once, on `events[i]` (the calls on `ui` and the
description are those of that one dispatch), and leaves the play flag, the
interval handle, the running intervals, the speed and the log as they were. -/
theorem C2_seekTo_valid (s : State) (events : List Event) (hl : Loaded s events)
    (i : Nat) (hi : i < events.length) :
    (seekTo (JSNum.fin i) s).threw = false ∧
    (seekTo (JSNum.fin i) s).state.currentEventIndex = i ∧
    (∃ e, events.get? i = some e ∧
      (seekTo (JSNum.fin i) s).state.calls = (executeEvent (some e) s).state.calls ∧
      (seekTo (JSNum.fin i) s).state.currentEventText =
        (executeEvent (some e) s).state.currentEventText) ∧
    (seekTo (JSNum.fin i) s).state.isPlaying = s.isPlaying ∧
    (seekTo (JSNum.fin i) s).state.intervalId = s.intervalId ∧
    (seekTo (JSNum.fin i) s).state.timers = s.timers ∧
    (seekTo (JSNum.fin i) s).state.playbackSpeed = s.playbackSpeed ∧
    (seekTo (JSNum.fin i) s).state.replayData = s.replayData := by
  obtain ⟨data, hd, he, hne⟩ := hl
  have hlen : events.length ≠ 0 := by
    intro hc; exact hne (List.length_eq_zero.mp hc)
  have hg : ((JSNum.fin (i : ℚ)).floor.ge (JSNum.fin 0) &&
      (JSNum.fin (i : ℚ)).floor.lt (JSNum.fin events.length)) = true := by
    simp [JSNum.floor, JSNum.ge, JSNum.lt, hi]
  have hs : seekTo (JSNum.fin i) s =
      updateProgressDisplay (executeEvent (events.get? i)
        { s with currentEventIndex := (i : Int) }).state := by
    simp only [seekTo, hd, he, hlen, hg, if_true, if_false]
    simp [JSNum.floor, JSNum.toInt, eventAt]
  rw [hs]
  obtain ⟨e, hget⟩ : ∃ e, events.get? i = some e := ⟨events.get ⟨i, hi⟩, List.get?_eq_get hi⟩
  refine ⟨?_, ?_, ⟨e, hget, ?_, ?_⟩, ?_, ?_, ?_, ?_, ?_⟩
  · exact updateProgressDisplay_threw _ data events (by simpa using hd) he
  · simp
  · rw [hget]; simp [executeEvent]; split <;> rfl
  · rw [hget]; simp [executeEvent]; split <;> rfl
  all_goals simp

theorem C2_seekTo_valid_witness :
    Loaded sampleLoaded sampleEvents ∧ 2 < sampleEvents.length ∧
      (seekTo (JSNum.fin (2 : Nat)) sampleLoaded).state.currentEventIndex = (2 : Nat) :=
  ⟨sampleLoaded_loaded, by decide,
    (C2_seekTo_valid sampleLoaded sampleEvents sampleLoaded_loaded 2 (by decide)).2.1⟩

theorem sampleAtOne_loaded : Loaded sampleAtOne sampleEvents :=
  ⟨sampleData, by decide, rfl, by decide⟩

/-- C3 as stated fails.  With the three sample events loaded and the index at
1, `seekTo(-1)` does not set the index to 0 and `seekTo(5)` does not set it to
the last index 2: both leave it at 1. -/
theorem C3_counterexample :
    (∃ data, sampleAtOne.replayData = some data ∧ data.events = some sampleEvents) ∧
      sampleEvents.length = 3 ∧
      (seekTo (JSNum.fin (-1)) sampleAtOne).state.currentEventIndex = 1 ∧
      (seekTo (JSNum.fin (-1)) sampleAtOne).state.currentEventIndex ≠ 0 ∧
      (seekTo (JSNum.fin 5) sampleAtOne).state.currentEventIndex = 1 ∧
      (seekTo (JSNum.fin 5) sampleAtOne).state.currentEventIndex ≠ 3 - 1 :=
  ⟨⟨sampleData, by decide, rfl⟩, by decide, by decide, by decide, by decide, by decide⟩

theorem seekTo_congr_floor (v w : JSNum) (s : State) (h : v.floor = w.floor) :
    seekTo v s = seekTo w s := by
  simp only [seekTo, h]

theorem seekTo_guard_false (v : JSNum) (s : State) (events : List Event)
    (hl : Loaded s events)
    (hg : (v.floor.ge (JSNum.fin 0) && v.floor.lt (JSNum.fin events.length)) = false) :
    seekTo v s = ⟨s, false⟩ := by
  obtain ⟨data, hd, he, _⟩ := hl
  simp only [seekTo, hd, he, hg]
  simp

/-- C3, amended.  With a non-empty log loaded, `seekTo` does not clamp.  A
target below 0, a target of `events.length` or more, `NaN` and the two
infinities are ignored: the state stays as it is, nothing is dispatched and
nothing is thrown.  A target strictly between the last index and
`events.length` is floored to the last index and acts as `seekTo(length - 1)`. -/
theorem C3_seekTo_outside (s : State) (events : List Event) (hl : Loaded s events) :
    (∀ q : ℚ, q < 0 ∨ (events.length : ℚ) ≤ q → seekTo (JSNum.fin q) s = ⟨s, false⟩) ∧
    seekTo JSNum.nan s = ⟨s, false⟩ ∧
    seekTo JSNum.posInf s = ⟨s, false⟩ ∧
    seekTo JSNum.negInf s = ⟨s, false⟩ ∧
    (∀ q : ℚ, (events.length : ℚ) - 1 < q → q < (events.length : ℚ) →
      seekTo (JSNum.fin q) s = seekTo (JSNum.fin ((events.length - 1 : Nat) : ℚ)) s) := by
  refine ⟨?_, ?_, ?_, ?_, ?_⟩
  · intro q hq
    apply seekTo_guard_false _ s events hl
    rcases hq with hq | hq
    · have h1 : ¬ (0 : ℚ) ≤ (Int.floor q : ℚ) := by
        intro hc
        have h2 : (0 : Int) ≤ Int.floor q := by exact_mod_cast hc
        have h3 : ((0 : Int) : ℚ) ≤ q := Int.le_floor.mp h2
        simp at h3
        linarith
      simp [JSNum.floor, JSNum.ge, h1]
    · have h1 : ¬ (Int.floor q : ℚ) < (events.length : ℚ) := by
        intro hc
        have h2 : Int.floor q < (events.length : Int) := by exact_mod_cast hc
        have h3 : q < ((events.length : Int) : ℚ) := Int.floor_lt.mp h2
        simp at h3
        linarith
      simp [JSNum.floor, JSNum.lt, h1]
  · exact seekTo_guard_false _ s events hl (by simp [JSNum.floor, JSNum.ge])
  · exact seekTo_guard_false _ s events hl (by simp [JSNum.floor, JSNum.lt])
  · exact seekTo_guard_false _ s events hl (by simp [JSNum.floor, JSNum.ge])
  · intro q h1 h2
    apply seekTo_congr_floor
    obtain ⟨_, _, _, hne⟩ := hl
    have hpos : 0 < events.length := List.length_pos.mpr hne
    have hf : Int.floor q = ((events.length - 1 : Nat) : Int) := by
      rw [Int.floor_eq_iff]
      push_cast [Nat.cast_sub hpos]
      constructor <;> linarith
    simp [JSNum.floor, hf]

theorem C3_seekTo_outside_witness :
    Loaded sampleAtOne sampleEvents ∧
      seekTo (JSNum.fin (-1)) sampleAtOne = ⟨sampleAtOne, false⟩ ∧
      seekTo (JSNum.fin 5) sampleAtOne = ⟨sampleAtOne, false⟩ ∧
      seekTo (JSNum.fin (mkRat 5 2)) sampleAtOne =
        seekTo (JSNum.fin ((sampleEvents.length - 1 : Nat) : ℚ)) sampleAtOne :=
  ⟨sampleAtOne_loaded,
    (C3_seekTo_outside sampleAtOne sampleEvents sampleAtOne_loaded).1 (-1) (Or.inl (by norm_num)),
    (C3_seekTo_outside sampleAtOne sampleEvents sampleAtOne_loaded).1 5
      (Or.inr (by simp [sampleEvents]; norm_num)),
    (C3_seekTo_outside sampleAtOne sampleEvents sampleAtOne_loaded).2.2.2.2 (mkRat 5 2)
      (by simp [sampleEvents]; norm_num [Rat.mkRat_eq_div])
      (by simp [sampleEvents]; norm_num [Rat.mkRat_eq_div])⟩

/-! ## Loading (C4, C5, C6) -/

/-- C4 as stated fails.  A controller that is playing the sample replay and
loads it again with success has its index at 0 but is still playing, with the
same interval running. -/
theorem C4_counterexample :
    sampleData.error.truthy = false ∧ sampleData.events = some sampleEvents ∧
      samplePlaying.isPlaying = true ∧
      (loadReplayData (FetchResult.json sampleData) samplePlaying).currentEventIndex = 0 ∧
      (loadReplayData (FetchResult.json sampleData) samplePlaying).isPlaying = true ∧
      (loadReplayData (FetchResult.json sampleData) samplePlaying).isPlaying ≠ false ∧
      (loadReplayData (FetchResult.json sampleData) samplePlaying).timers ≠ [] := by
  decide

/-- C4, amended.  After `loadReplayData` succeeds (an answer whose `error` is
not truthy and that has an `events` array), the log is the answer and the index
is 0, whatever the state before; the play flag, the interval handle and the
running intervals are those of before the call, so the controller is not
playing after the call exactly when it was not playing before it. -/
theorem C4_load_success (s : State) (data : ReplayData) (events : List Event)
    (herr : data.error.truthy = false) (hev : data.events = some events) :
    (loadReplayData (FetchResult.json data) s).replayData = some data ∧
    (loadReplayData (FetchResult.json data) s).currentEventIndex = 0 ∧
    (loadReplayData (FetchResult.json data) s).isPlaying = s.isPlaying ∧
    (loadReplayData (FetchResult.json data) s).intervalId = s.intervalId ∧
    (loadReplayData (FetchResult.json data) s).timers = s.timers ∧
    (loadReplayData (FetchResult.json data) s).progressText = (1, (events.length : Int)) ∧
    (loadReplayData (FetchResult.json data) s).notices =
      s.notices ++ [Notice.loaded events.length data.total_duration] := by
  simp [loadReplayData, herr, updateProgressDisplay, hev, alert, showReplayControls]

theorem C4_load_success_witness :
    sampleData.error.truthy = false ∧ sampleData.events = some sampleEvents ∧
      (loadReplayData (FetchResult.json sampleData) sampleAtTwo).currentEventIndex = 0 ∧
      (loadReplayData (FetchResult.json sampleData) sampleAtTwo).isPlaying =
        sampleAtTwo.isPlaying :=
  ⟨by decide, rfl,
    (C4_load_success sampleAtTwo sampleData sampleEvents (by decide) rfl).2.1,
    (C4_load_success sampleAtTwo sampleData sampleEvents (by decide) rfl).2.2.1⟩

/-- C5 as stated fails.  An answer that carries an `error` field holding `null`
next to its events is taken as a success: loaded into a controller at index 2
of the sample replay, it replaces the log and resets the index. -/
theorem C5_counterexample :
    nullErrorData.error = JsVal.null ∧
      sampleAtTwo.replayData = some sampleData ∧ sampleAtTwo.currentEventIndex = 2 ∧
      (loadReplayData (FetchResult.json nullErrorData) sampleAtTwo).replayData =
        some nullErrorData ∧
      (loadReplayData (FetchResult.json nullErrorData) sampleAtTwo).replayData ≠
        sampleAtTwo.replayData ∧
      (loadReplayData (FetchResult.json nullErrorData) sampleAtTwo).currentEventIndex ≠
        sampleAtTwo.currentEventIndex := by
  decide

/-- C5, amended.  A load fails without touching the controller when the fetch
throws or when the `error` field of the answer is truthy (a non-empty string,
say): then the whole state is the one before the call, but for the message box
that reports the failure.  So `replayData`, the index, the play flag, the speed
and the interval handle are those of before the call. -/
theorem C5_failed_load_atomic (r : FetchResult) (s : State)
    (h : r = FetchResult.rejected ∨
      ∃ data, r = FetchResult.json data ∧ data.error.truthy = true) :
    (∃ n, loadReplayData r s = { s with notices := s.notices ++ [n] }) ∧
    (loadReplayData r s).replayData = s.replayData ∧
    (loadReplayData r s).currentEventIndex = s.currentEventIndex ∧
    (loadReplayData r s).isPlaying = s.isPlaying ∧
    (loadReplayData r s).playbackSpeed = s.playbackSpeed ∧
    (loadReplayData r s).intervalId = s.intervalId ∧
    (loadReplayData r s).timers = s.timers := by
  obtain ⟨n, hn⟩ := loadReplayData_failed r s h
  rw [hn]
  exact ⟨⟨n, rfl⟩, rfl, rfl, rfl, rfl, rfl, rfl⟩

theorem C5_failed_load_atomic_witness :
    (FetchResult.json errorData = FetchResult.rejected ∨
      ∃ data, FetchResult.json errorData = FetchResult.json data ∧
        data.error.truthy = true) ∧
      (loadReplayData (FetchResult.json errorData) samplePlaying).replayData =
        samplePlaying.replayData ∧
      (loadReplayData FetchResult.rejected samplePlaying).replayData =
        samplePlaying.replayData :=
  ⟨Or.inr ⟨errorData, rfl, by decide⟩,
    (C5_failed_load_atomic (FetchResult.json errorData) samplePlaying
      (Or.inr ⟨errorData, rfl, by decide⟩)).2.1,
    (C5_failed_load_atomic FetchResult.rejected samplePlaying (Or.inl rfl)).2.1⟩

/-- C6, the code at the failing input.  A controller at index 2 of the sample
replay receives the empty object as answer: `loadReplayData` reports a failed
load, yet the log has been replaced by the empty object and the index is 0;
after that `nextEvent` throws. -/
theorem C6_malformed_load_overwrites :
    emptyObject.error = JsVal.undefined ∧ emptyObject.events = none ∧
      sampleAtTwo.replayData = some sampleData ∧ sampleAtTwo.currentEventIndex = 2 ∧
      (loadReplayData (FetchResult.json emptyObject) sampleAtTwo).notices =
        sampleAtTwo.notices ++ [Notice.loadFailed] ∧
      (loadReplayData (FetchResult.json emptyObject) sampleAtTwo).replayData =
        some emptyObject ∧
      (loadReplayData (FetchResult.json emptyObject) sampleAtTwo).currentEventIndex = 0 ∧
      (nextEvent (loadReplayData (FetchResult.json emptyObject) sampleAtTwo)).threw = true := by
  decide

/-! ## Steps and ticks (C7, C8) -/

theorem Loaded.length_ne_zero {s : State} {events : List Event} (hl : Loaded s events) :
    events.length ≠ 0 := by
  obtain ⟨_, _, _, hne⟩ := hl
  intro hc
  exact hne (List.length_eq_zero.mp hc)

/-- C7. With a non-empty log loaded, `nextEvent` at the last index and
`previousEvent` at index 0 return without throwing and leave the whole state as
it is: the index, every other field, the calls made on `ui` and the
description. -/
theorem C7_boundary_steps (s : State) (events : List Event) (hl : Loaded s events) :
    (s.currentEventIndex = (events.length : Int) - 1 → nextEvent s = ⟨s, false⟩) ∧
    (s.currentEventIndex = 0 → previousEvent s = ⟨s, false⟩) := by
  have hlen := hl.length_ne_zero
  obtain ⟨data, hd, he, _⟩ := hl
  constructor
  · intro hi
    simp [nextEvent, hd, he, hlen, hi]
  · intro hi
    simp [previousEvent, hd, he, hlen, hi]

theorem sampleAtTwo_loaded : Loaded sampleAtTwo sampleEvents :=
  ⟨sampleData, by decide, rfl, by decide⟩

theorem C7_boundary_steps_witness :
    Loaded sampleAtTwo sampleEvents ∧ Loaded sampleLoaded sampleEvents ∧
      sampleAtTwo.currentEventIndex = (sampleEvents.length : Int) - 1 ∧
      sampleLoaded.currentEventIndex = 0 ∧
      nextEvent sampleAtTwo = ⟨sampleAtTwo, false⟩ ∧
      previousEvent sampleLoaded = ⟨sampleLoaded, false⟩ :=
  ⟨sampleAtTwo_loaded, sampleLoaded_loaded, by decide, by decide,
    (C7_boundary_steps sampleAtTwo sampleEvents sampleAtTwo_loaded).1 (by decide),
    (C7_boundary_steps sampleLoaded sampleEvents sampleLoaded_loaded).2 (by decide)⟩

theorem executeEvent_calls_index (event : Option Event) (s : State) (i : Int) :
    (executeEvent event { s with currentEventIndex := i }).state.calls =
      (executeEvent event s).state.calls := by
  unfold executeEvent
  repeat' split
  all_goals first | rfl | simp_all

theorem executeEvent_text_index (event : Option Event) (s : State) (i : Int) :
    (executeEvent event { s with currentEventIndex := i }).state.currentEventText =
      (executeEvent event s).state.currentEventText := by
  unfold executeEvent
  repeat' split
  all_goals first | rfl | simp_all

/-- C8. With a non-empty log loaded and the index before the last one, the
callback of the interval (`playNextEvent`) does what `nextEvent` does, and
`nextEvent` adds 1 to the index, runs `executeEvent` once, on the event at the
new index (which exists when the index was not negative), and leaves the play
flag, the interval handle, the running intervals, the speed and the log as they
were. -/
theorem C8_single_advance (s : State) (events : List Event) (hl : Loaded s events)
    (hlt : s.currentEventIndex < (events.length : Int) - 1) :
    playNextEvent s = nextEvent s ∧
    (s.timers ≠ [] → tick s = (nextEvent s).state) ∧
    (nextEvent s).threw = false ∧
    (nextEvent s).state.currentEventIndex = s.currentEventIndex + 1 ∧
    (nextEvent s).state.calls =
      (executeEvent (eventAt events (s.currentEventIndex + 1)) s).state.calls ∧
    (nextEvent s).state.currentEventText =
      (executeEvent (eventAt events (s.currentEventIndex + 1)) s).state.currentEventText ∧
    (0 ≤ s.currentEventIndex →
      ∃ e, eventAt events (s.currentEventIndex + 1) = some e ∧
        events.get? (s.currentEventIndex + 1).toNat = some e) ∧
    (nextEvent s).state.isPlaying = s.isPlaying ∧
    (nextEvent s).state.intervalId = s.intervalId ∧
    (nextEvent s).state.timers = s.timers ∧
    (nextEvent s).state.playbackSpeed = s.playbackSpeed ∧
    (nextEvent s).state.replayData = s.replayData := by
  have hlen := hl.length_ne_zero
  obtain ⟨data, hd, he, _⟩ := hl
  have hp : playNextEvent s = nextEvent s := by
    have hn : ¬ s.currentEventIndex ≥ (events.length : Int) - 1 := by omega
    simp only [playNextEvent, hd, he, hn, if_false]
  have hs : nextEvent s =
      updateProgressDisplay (executeEvent (eventAt events (s.currentEventIndex + 1))
        { s with currentEventIndex := s.currentEventIndex + 1 }).state := by
    simp only [nextEvent, hd, he, hlen, hlt, if_true, if_false]
  refine ⟨hp, ?_, ?_⟩
  · intro ht
    simp only [tick, ht, if_false, hp]
  rw [hs]
  refine ⟨?_, ?_, ?_, ?_, ?_, ?_, ?_, ?_, ?_, ?_⟩
  · exact updateProgressDisplay_threw _ data events (by simpa using hd) he
  · simp
  · simp [executeEvent_calls_index]
  · simp [executeEvent_text_index]
  · intro h0
    have hi : (s.currentEventIndex + 1).toNat < events.length := by omega
    have h1 : (0 : Int) ≤ s.currentEventIndex + 1 := by omega
    exact ⟨events.get ⟨_, hi⟩, by simp [eventAt, h1, List.get?_eq_get hi],
      List.get?_eq_get hi⟩
  all_goals simp

theorem C8_single_advance_witness :
    Loaded samplePlaying sampleEvents ∧
      samplePlaying.currentEventIndex < (sampleEvents.length : Int) - 1 ∧
      playNextEvent samplePlaying = nextEvent samplePlaying ∧
      (nextEvent samplePlaying).state.currentEventIndex =
        samplePlaying.currentEventIndex + 1 :=
  ⟨⟨sampleData, by decide, rfl, by decide⟩, by decide,
    (C8_single_advance samplePlaying sampleEvents ⟨sampleData, by decide, rfl, by decide⟩
      (by decide)).1,
    (C8_single_advance samplePlaying sampleEvents ⟨sampleData, by decide, rfl, by decide⟩
      (by decide)).2.2.2.1⟩

/-! ## The play flag and the interval (C9, C10) -/

theorem TickerAgrees.of_same_control {s t : State} (h : TickerAgrees s)
    (hp : t.isPlaying = s.isPlaying) (hi : t.intervalId = s.intervalId)
    (ht : t.timers = s.timers) : TickerAgrees t := by
  unfold TickerAgrees
  rw [hp, hi, ht]
  exact h

theorem pausePlayback_stops (s : State) (h : TickerAgrees s) :
    (pausePlayback s).intervalId = none ∧ (pausePlayback s).timers = [] := by
  unfold pausePlayback
  cases hp : s.isPlaying with
  | true =>
    obtain ⟨id, interval, hi, ht⟩ := h.1 hp
    simp [hi, clearInterval, ht]
  | false =>
    obtain ⟨hi, ht⟩ := h.2 hp
    simp [hi, ht]

theorem pausePlayback_isPlaying (s : State) : (pausePlayback s).isPlaying = s.isPlaying := by
  unfold pausePlayback; split <;> rfl

theorem startPlayback_isPlaying (s : State) : (startPlayback s).isPlaying = s.isPlaying := by
  unfold startPlayback; split <;> rfl

theorem startPlayback_starts (s : State) (hi : s.intervalId = none) (ht : s.timers = []) :
    ∃ id interval, (startPlayback s).intervalId = some id ∧
      (startPlayback s).timers = [⟨id, interval⟩] := by
  refine ⟨s.nextTimerId, s.baseInterval.div s.playbackSpeed, ?_, ?_⟩ <;>
    simp [startPlayback, hi, setInterval, ht]

theorem startPlayback_restarts (s : State) (id : Nat) (interval : JSNum)
    (hi : s.intervalId = some id) (ht : s.timers = [⟨id, interval⟩]) :
    ∃ id' interval', (startPlayback s).intervalId = some id' ∧
      (startPlayback s).timers = [⟨id', interval'⟩] := by
  refine ⟨s.nextTimerId, s.baseInterval.div s.playbackSpeed, ?_, ?_⟩ <;>
    simp [startPlayback, hi, setInterval, ht, clearInterval]

theorem togglePlayPause_agrees (s : State) (h : TickerAgrees s) :
    TickerAgrees (togglePlayPause s).state := by
  unfold togglePlayPause
  split
  · exact h.of_same_control rfl rfl rfl
  · split
    · exact h
    · split
      · exact h.of_same_control rfl rfl rfl
      · cases hp : s.isPlaying with
        | true =>
          obtain ⟨id, interval, hi, ht⟩ := h.1 hp
          simp [TickerAgrees, pausePlayback, clearInterval, hi, ht]
        | false =>
          obtain ⟨hi, ht⟩ := h.2 hp
          simp [TickerAgrees, startPlayback, setInterval, hi, ht]

theorem setSpeed_agrees (v : JSNum) (s : State) (h : TickerAgrees s) :
    TickerAgrees (setSpeed v s) := by
  unfold setSpeed
  cases hp : s.isPlaying with
  | true =>
    obtain ⟨id, interval, hi, ht⟩ := h.1 hp
    simp [TickerAgrees, pausePlayback, startPlayback, setInterval, clearInterval, hi, ht, hp]
  | false =>
    obtain ⟨hi, ht⟩ := h.2 hp
    simp [TickerAgrees, hi, ht, hp]

theorem resetReplay_agrees (s : State) (h : TickerAgrees s) :
    TickerAgrees (resetReplay s) := by
  unfold resetReplay
  cases hp : s.isPlaying with
  | true =>
    obtain ⟨id, interval, hi, ht⟩ := h.1 hp
    simp [TickerAgrees, clearInterval, hi, ht]
  | false =>
    obtain ⟨hi, ht⟩ := h.2 hp
    simp [TickerAgrees, hi, ht]

theorem nextEvent_control (s : State) :
    (nextEvent s).state.isPlaying = s.isPlaying ∧
    (nextEvent s).state.intervalId = s.intervalId ∧
    (nextEvent s).state.timers = s.timers := by
  unfold nextEvent
  repeat' split
  all_goals simp

theorem previousEvent_control (s : State) :
    (previousEvent s).state.isPlaying = s.isPlaying ∧
    (previousEvent s).state.intervalId = s.intervalId ∧
    (previousEvent s).state.timers = s.timers := by
  unfold previousEvent
  repeat' split
  all_goals simp

theorem seekTo_control (v : JSNum) (s : State) :
    (seekTo v s).state.isPlaying = s.isPlaying ∧
    (seekTo v s).state.intervalId = s.intervalId ∧
    (seekTo v s).state.timers = s.timers := by
  unfold seekTo
  dsimp only
  repeat' split
  all_goals simp

theorem loadReplayData_control (r : FetchResult) (s : State) :
    (loadReplayData r s).isPlaying = s.isPlaying ∧
    (loadReplayData r s).intervalId = s.intervalId ∧
    (loadReplayData r s).timers = s.timers := by
  cases r with
  | rejected => exact ⟨rfl, rfl, rfl⟩
  | json data =>
    cases ht : data.error.truthy with
    | true =>
      obtain ⟨n, hn⟩ := loadReplayData_failed (FetchResult.json data) s (Or.inr ⟨data, rfl, ht⟩)
      rw [hn]
      exact ⟨rfl, rfl, rfl⟩
    | false =>
      obtain ⟨_, _, h1, h2, h3, _⟩ := loadReplayData_json data s ht
      exact ⟨h1, h2, h3⟩

theorem playNextEvent_agrees (s : State) (h : TickerAgrees s) :
    TickerAgrees (playNextEvent s).state := by
  unfold playNextEvent
  split
  · exact h
  · split
    · exact h
    · split
      · obtain ⟨hi, ht⟩ := pausePlayback_stops s h
        simp [TickerAgrees, alert, hi, ht]
      · obtain ⟨h1, h2, h3⟩ := nextEvent_control s
        exact h.of_same_control h1 h2 h3

theorem step_agrees (c : Command) (s : State) (h : TickerAgrees s) :
    TickerAgrees (step c s) := by
  cases c with
  | load r =>
    obtain ⟨h1, h2, h3⟩ := loadReplayData_control r s
    exact h.of_same_control h1 h2 h3
  | resetReplay => exact resetReplay_agrees s h
  | togglePlayPause => exact togglePlayPause_agrees s h
  | tick =>
    show TickerAgrees (tick s)
    unfold tick
    split
    · exact h
    · exact playNextEvent_agrees s h
  | previousEvent =>
    obtain ⟨h1, h2, h3⟩ := previousEvent_control s
    exact h.of_same_control h1 h2 h3
  | nextEvent =>
    obtain ⟨h1, h2, h3⟩ := nextEvent_control s
    exact h.of_same_control h1 h2 h3
  | seekTo v =>
    obtain ⟨h1, h2, h3⟩ := seekTo_control v s
    exact h.of_same_control h1 h2 h3
  | setSpeed v => exact setSpeed_agrees v s h
  | showReplayControls => exact h.of_same_control rfl rfl rfl
  | hideReplayControls => exact h.of_same_control rfl rfl rfl

theorem Reachable.tickerAgrees {s : State} (h : Reachable s) : TickerAgrees s := by
  induction h with
  | new b => simp [TickerAgrees, ReplayController.new]
  | step c _ ih => exact step_agrees c _ ih

theorem step_stays_paused (c : Command) (s : State) (hc : c ≠ Command.togglePlayPause)
    (hp : s.isPlaying = false) : (step c s).isPlaying = false := by
  cases c with
  | load r => rw [← hp]; exact (loadReplayData_control r s).1
  | resetReplay =>
    show (resetReplay s).isPlaying = false
    unfold resetReplay
    cases s.intervalId <;> simp [clearInterval]
  | togglePlayPause => exact absurd rfl hc
  | tick =>
    show (tick s).isPlaying = false
    unfold tick
    split
    · exact hp
    · unfold playNextEvent
      repeat' split
      · exact hp
      · exact hp
      · rfl
      · rw [← hp]; exact (nextEvent_control s).1
  | previousEvent => rw [← hp]; exact (previousEvent_control s).1
  | nextEvent => rw [← hp]; exact (nextEvent_control s).1
  | seekTo v => rw [← hp]; exact (seekTo_control v s).1
  | setSpeed v => simp [step, setSpeed, hp]
  | showReplayControls => exact hp
  | hideReplayControls => exact hp

theorem run_stays_paused (cs : List Command) (s : State)
    (hc : Command.togglePlayPause ∉ cs) (hp : s.isPlaying = false) :
    (run cs s).isPlaying = false := by
  induction cs generalizing s with
  | nil => exact hp
  | cons c cs ih =>
    have h1 : c ≠ Command.togglePlayPause := fun h => hc (h ▸ List.mem_cons_self _ _)
    have h2 : Command.togglePlayPause ∉ cs := fun h => hc (List.mem_cons_of_mem _ h)
    exact ih (step c s) h2 (step_stays_paused c s h1 hp)

theorem tick_of_no_timers (s : State) (h : s.timers = []) : tick s = s := by
  simp [tick, h]

/-- C9. In a reachable state that is playing, with a non-empty log loaded and
the index at the last event, an interval is running, and its tick leaves the
index, the log, the calls made on `ui` and the description as they are, tells
that the replay has ended, sets the play flag to `false`, clears the handle and
leaves no interval running.  From then on a tick changes nothing, and no
interval runs after any commands among which there is no `togglePlayPause`. -/
theorem C9_finishing (s : State) (hr : Reachable s) (hp : s.isPlaying = true)
    (events : List Event) (hl : Loaded s events)
    (hi : s.currentEventIndex = (events.length : Int) - 1) :
    s.timers ≠ [] ∧
    (tick s).currentEventIndex = s.currentEventIndex ∧
    (tick s).replayData = s.replayData ∧
    (tick s).calls = s.calls ∧
    (tick s).currentEventText = s.currentEventText ∧
    (tick s).notices = s.notices ++ [Notice.finished] ∧
    (tick s).isPlaying = false ∧
    (tick s).intervalId = none ∧
    (tick s).timers = [] ∧
    tick (tick s) = tick s ∧
    (∀ cs, Command.togglePlayPause ∉ cs → (run cs (tick s)).timers = []) := by
  have ha := hr.tickerAgrees
  obtain ⟨id, interval, hid, ht⟩ := ha.1 hp
  obtain ⟨data, hd, he, _⟩ := hl
  have hne : s.timers ≠ [] := by simp [ht]
  have hge : s.currentEventIndex ≥ (events.length : Int) - 1 := by omega
  have hs : tick s =
      alert Notice.finished
        { pausePlayback s with isPlaying := false, playPauseText := playLabel } := by
    simp only [tick, hne, if_false, playNextEvent, hd, he, hge, if_true]
  have hpause : pausePlayback s = { clearInterval id s with intervalId := none } := by
    simp [pausePlayback, hid]
  have hplay : (tick s).isPlaying = false := by rw [hs]; rfl
  have htim : (tick s).timers = [] := by
    rw [hs, hpause]; simp [alert, clearInterval, ht]
  refine ⟨hne, ?_, ?_, ?_, ?_, ?_, hplay, ?_, htim, ?_, ?_⟩
  · rw [hs, hpause]; rfl
  · rw [hs, hpause]; rfl
  · rw [hs, hpause]; rfl
  · rw [hs, hpause]; rfl
  · rw [hs, hpause]; rfl
  · rw [hs, hpause]; rfl
  · exact tick_of_no_timers _ htim
  · intro cs hcs
    have hr' : Reachable (run cs (tick s)) := (Reachable.step Command.tick hr).run cs
    exact (hr'.tickerAgrees.2 (run_stays_paused cs (tick s) hcs hplay)).2

theorem C9_finishing_witness :
    Reachable samplePlayingAtEnd ∧ samplePlayingAtEnd.isPlaying = true ∧
      Loaded samplePlayingAtEnd sampleEvents ∧
      samplePlayingAtEnd.currentEventIndex = (sampleEvents.length : Int) - 1 ∧
      (tick samplePlayingAtEnd).isPlaying = false ∧
      (tick samplePlayingAtEnd).timers = [] :=
  ⟨(Reachable.new true).run _, by decide, ⟨sampleData, by decide, rfl, by decide⟩, by decide,
    (C9_finishing samplePlayingAtEnd ((Reachable.new true).run _) (by decide) sampleEvents
      ⟨sampleData, by decide, rfl, by decide⟩ (by decide)).2.2.2.2.2.2.1,
    (C9_finishing samplePlayingAtEnd ((Reachable.new true).run _) (by decide) sampleEvents
      ⟨sampleData, by decide, rfl, by decide⟩ (by decide)).2.2.2.2.2.2.2.2.1⟩

theorem togglePlayPause_replayData (s : State) :
    (togglePlayPause s).state.replayData = s.replayData := by
  unfold togglePlayPause
  split
  · rfl
  · split
    · rfl
    · split
      · rfl
      · dsimp only
        split <;> simp [startPlayback_replayData, pausePlayback_replayData]

theorem togglePlayPause_loaded (s : State) (events : List Event) (hl : Loaded s events) :
    (togglePlayPause s).state.isPlaying = !s.isPlaying := by
  have hlen := hl.length_ne_zero
  obtain ⟨data, hd, he, _⟩ := hl
  simp only [togglePlayPause, hd, he, hlen, if_false]
  split <;> simp [startPlayback_isPlaying, pausePlayback_isPlaying]

theorem togglePlayPause_not_loaded (s : State) (h : ¬ ∃ events, Loaded s events) :
    (togglePlayPause s).state.isPlaying = s.isPlaying := by
  unfold togglePlayPause
  split
  · rfl
  · rename_i data hd
    split
    · rfl
    · rename_i events he
      split
      · rfl
      · rename_i hlen
        exact absurd ⟨events, data, hd, he, fun hc => hlen (by simp [hc])⟩ h

/-- C10. In every state, with or without a log, two calls of `togglePlayPause`
in a row bring the play flag back to its value.  A call that turns playing off
leaves no handle stored and has cleared the interval of the handle that was
stored; in a reachable state no interval runs after it. -/
theorem C10_toggle_twice (s : State) :
    (togglePlayPause (togglePlayPause s).state).state.isPlaying = s.isPlaying ∧
    (s.isPlaying = true → (togglePlayPause s).state.isPlaying = false →
      (togglePlayPause s).state.intervalId = none ∧
      (∀ id, s.intervalId = some id →
        ∀ t ∈ (togglePlayPause s).state.timers, t.id ≠ id) ∧
      (Reachable s → (togglePlayPause s).state.timers = [])) := by
  constructor
  · by_cases h : ∃ events, Loaded s events
    · obtain ⟨events, hl⟩ := h
      have hl' : Loaded (togglePlayPause s).state events := by
        unfold Loaded
        rw [togglePlayPause_replayData]
        exact hl
      rw [togglePlayPause_loaded _ events hl', togglePlayPause_loaded _ events hl]
      simp
    · have h' : ¬ ∃ events, Loaded (togglePlayPause s).state events := by
        unfold Loaded
        rw [togglePlayPause_replayData]
        exact h
      rw [togglePlayPause_not_loaded _ h', togglePlayPause_not_loaded _ h]
  · intro hp hoff
    have hl : ∃ events, Loaded s events := by
      by_contra hc
      rw [togglePlayPause_not_loaded s hc, hp] at hoff
      cases hoff
    obtain ⟨events, hl⟩ := hl
    have hlen := hl.length_ne_zero
    obtain ⟨data, hd, he, _⟩ := hl
    have hs : (togglePlayPause s).state =
        { pausePlayback { s with isReplaying := true, isPlaying := false } with
          playPauseText := playLabel } := by
      simp [togglePlayPause, hd, he, hlen, hp]
    rw [hs]
    refine ⟨?_, ?_, ?_⟩
    · unfold pausePlayback
      cases s.intervalId <;> rfl
    · intro id hid t ht
      simp [pausePlayback, hid, clearInterval] at ht
      exact ht.2
    · intro hr
      obtain ⟨id, interval, hid, ht⟩ := hr.tickerAgrees.1 hp
      simp [pausePlayback, hid, clearInterval, ht]

theorem C10_toggle_twice_witness :
    samplePlaying.isPlaying = true ∧
      (togglePlayPause samplePlaying).state.isPlaying = false ∧
      (togglePlayPause (togglePlayPause samplePlaying).state).state.isPlaying =
        samplePlaying.isPlaying ∧
      (togglePlayPause samplePlaying).state.intervalId = none ∧
      (togglePlayPause samplePlaying).state.timers = [] :=
  ⟨by decide, by decide, (C10_toggle_twice samplePlaying).1,
    ((C10_toggle_twice samplePlaying).2 (by decide) (by decide)).1,
    ((C10_toggle_twice samplePlaying).2 (by decide) (by decide)).2.2
      ((Reachable.new true).run _)⟩

/-! ## The cadence of the interval (C11) -/

theorem Cadence.of_same_speed {s t : State} (h : Cadence s)
    (hb : t.baseInterval = s.baseInterval) (hv : t.playbackSpeed = s.playbackSpeed)
    (ht : t.timers = s.timers) : Cadence t := by
  unfold Cadence
  rw [hb, hv, ht]
  exact h

theorem nextEvent_speed (s : State) :
    (nextEvent s).state.baseInterval = s.baseInterval ∧
    (nextEvent s).state.playbackSpeed = s.playbackSpeed := by
  unfold nextEvent
  repeat' split
  all_goals simp

theorem previousEvent_speed (s : State) :
    (previousEvent s).state.baseInterval = s.baseInterval ∧
    (previousEvent s).state.playbackSpeed = s.playbackSpeed := by
  unfold previousEvent
  repeat' split
  all_goals simp

theorem seekTo_speed (v : JSNum) (s : State) :
    (seekTo v s).state.baseInterval = s.baseInterval ∧
    (seekTo v s).state.playbackSpeed = s.playbackSpeed := by
  unfold seekTo
  dsimp only
  repeat' split
  all_goals simp

theorem loadReplayData_speed (r : FetchResult) (s : State) :
    (loadReplayData r s).baseInterval = s.baseInterval ∧
    (loadReplayData r s).playbackSpeed = s.playbackSpeed := by
  cases r with
  | rejected => exact ⟨rfl, rfl⟩
  | json data =>
    cases ht : data.error.truthy with
    | true =>
      obtain ⟨n, hn⟩ := loadReplayData_failed (FetchResult.json data) s (Or.inr ⟨data, rfl, ht⟩)
      rw [hn]
      exact ⟨rfl, rfl⟩
    | false =>
      obtain ⟨_, _, _, _, _, _, h1, h2, _⟩ := loadReplayData_json data s ht
      exact ⟨h2, h1⟩

theorem togglePlayPause_cadence (s : State) (ha : TickerAgrees s) (h : Cadence s) :
    Cadence (togglePlayPause s).state := by
  unfold togglePlayPause
  split
  · exact h.of_same_speed rfl rfl rfl
  · split
    · exact h
    · split
      · exact h.of_same_speed rfl rfl rfl
      · cases hp : s.isPlaying with
        | true =>
          obtain ⟨id, interval, hi, ht⟩ := ha.1 hp
          simp [Cadence, pausePlayback, clearInterval, hi, ht, h.1]
        | false =>
          obtain ⟨hi, ht⟩ := ha.2 hp
          simp [Cadence, startPlayback, setInterval, hi, ht, h.1]

theorem setSpeed_cadence (v : JSNum) (s : State) (ha : TickerAgrees s) (h : Cadence s) :
    Cadence (setSpeed v s) := by
  unfold setSpeed
  cases hp : s.isPlaying with
  | true =>
    obtain ⟨id, interval, hi, ht⟩ := ha.1 hp
    simp [Cadence, pausePlayback, startPlayback, setInterval, clearInterval, hi, ht, hp, h.1]
  | false =>
    obtain ⟨hi, ht⟩ := ha.2 hp
    simp [Cadence, hi, ht, hp, h.1]

theorem resetReplay_cadence (s : State) (ha : TickerAgrees s) (h : Cadence s) :
    Cadence (resetReplay s) := by
  unfold resetReplay
  cases hp : s.isPlaying with
  | true =>
    obtain ⟨id, interval, hi, ht⟩ := ha.1 hp
    simp [Cadence, clearInterval, hi, ht, h.1]
  | false =>
    obtain ⟨hi, ht⟩ := ha.2 hp
    simp [Cadence, hi, ht, h.1]

theorem playNextEvent_cadence (s : State) (ha : TickerAgrees s) (h : Cadence s) :
    Cadence (playNextEvent s).state := by
  unfold playNextEvent
  split
  · exact h
  · split
    · exact h
    · split
      · obtain ⟨_, ht⟩ := pausePlayback_stops s ha
        have hb : (pausePlayback s).baseInterval = s.baseInterval := by
          unfold pausePlayback; split <;> rfl
        simp [Cadence, alert, ht, hb, h.1]
      · obtain ⟨h1, h2⟩ := nextEvent_speed s
        exact h.of_same_speed h1 h2 (nextEvent_control s).2.2

theorem step_cadence (c : Command) (s : State) (ha : TickerAgrees s) (h : Cadence s) :
    Cadence (step c s) := by
  cases c with
  | load r =>
    obtain ⟨h1, h2⟩ := loadReplayData_speed r s
    exact h.of_same_speed h1 h2 (loadReplayData_control r s).2.2
  | resetReplay => exact resetReplay_cadence s ha h
  | togglePlayPause => exact togglePlayPause_cadence s ha h
  | tick =>
    show Cadence (tick s)
    unfold tick
    split
    · exact h
    · exact playNextEvent_cadence s ha h
  | previousEvent =>
    obtain ⟨h1, h2⟩ := previousEvent_speed s
    exact h.of_same_speed h1 h2 (previousEvent_control s).2.2
  | nextEvent =>
    obtain ⟨h1, h2⟩ := nextEvent_speed s
    exact h.of_same_speed h1 h2 (nextEvent_control s).2.2
  | seekTo v =>
    obtain ⟨h1, h2⟩ := seekTo_speed v s
    exact h.of_same_speed h1 h2 (seekTo_control v s).2.2
  | setSpeed v => exact setSpeed_cadence v s ha h
  | showReplayControls => exact h.of_same_speed rfl rfl rfl
  | hideReplayControls => exact h.of_same_speed rfl rfl rfl

theorem Reachable.cadence {s : State} (h : Reachable s) : Cadence s := by
  induction h with
  | new b => simp [Cadence, ReplayController.new]
  | step c hs ih => exact step_cadence c _ hs.tickerAgrees ih

theorem div_thousand (q : ℚ) (hq : 0 < q) :
    (JSNum.fin 1000).div (JSNum.fin q) = JSNum.fin (1000 / q) := by
  simp [JSNum.div, ne_of_gt hq]

/-- C11. In every reachable state the base interval is 1000 and every running
interval was started with delay `baseInterval / playbackSpeed` for the speed the
controller holds now; for a positive finite speed `q` that is the rational
`1000 / q`.  So starting to play at speed 2 runs the interval with delay 500,
and `setSpeed(4)` while playing clears the running interval and leaves exactly
one interval running, the one it starts, with delay 250. -/
theorem C11_cadence (s : State) (hr : Reachable s) :
    s.baseInterval = JSNum.fin 1000 ∧
    (∀ t ∈ s.timers, t.interval = s.baseInterval.div s.playbackSpeed) ∧
    (∀ q : ℚ, s.playbackSpeed = JSNum.fin q → 0 < q →
      ∀ t ∈ s.timers, t.interval = JSNum.fin (1000 / q)) ∧
    (s.isPlaying = false → s.playbackSpeed = JSNum.fin 2 →
      (∃ events, Loaded s events) →
      (togglePlayPause s).state.timers = [⟨s.nextTimerId, JSNum.fin 500⟩]) ∧
    (s.isPlaying = true →
      (setSpeed (JSNum.fin 4) s).timers = [⟨s.nextTimerId, JSNum.fin 250⟩] ∧
      (setSpeed (JSNum.fin 4) s).intervalId = some s.nextTimerId) := by
  have hc := hr.cadence
  have ha := hr.tickerAgrees
  refine ⟨hc.1, hc.2, ?_, ?_, ?_⟩
  · intro q hq hpos t ht
    rw [hc.2 t ht, hc.1, hq, div_thousand q hpos]
  · intro hp hv ⟨events, hl⟩
    have hlen := hl.length_ne_zero
    obtain ⟨data, hd, he, _⟩ := hl
    obtain ⟨hi, ht⟩ := ha.2 hp
    have h500 : (JSNum.fin 1000).div (JSNum.fin 2) = JSNum.fin 500 := by
      rw [div_thousand 2 (by norm_num)]; norm_num
    simp [togglePlayPause, hd, he, hlen, hp, startPlayback, setInterval, hi, ht, hc.1, hv, h500]
  · intro hp
    obtain ⟨id, interval, hi, ht⟩ := ha.1 hp
    have h250 : (JSNum.fin 1000).div (JSNum.fin 4) = JSNum.fin 250 := by
      rw [div_thousand 4 (by norm_num)]; norm_num
    refine ⟨?_, ?_⟩
    · simp [setSpeed, hp, pausePlayback, startPlayback, setInterval, clearInterval, hi, ht,
        hc.1, h250]
    · simp [setSpeed, hp, pausePlayback, startPlayback, setInterval, clearInterval, hi, ht]

theorem C11_cadence_witness :
    Reachable samplePlayingDouble ∧ samplePlayingDouble.isPlaying = true ∧
      samplePlayingDouble.playbackSpeed = JSNum.fin 2 ∧
      (∀ t ∈ samplePlayingDouble.timers, t.interval = JSNum.fin (1000 / 2)) ∧
      (setSpeed (JSNum.fin 4) samplePlayingDouble).timers =
        [⟨samplePlayingDouble.nextTimerId, JSNum.fin 250⟩] :=
  ⟨(Reachable.new true).run _, by decide, by decide,
    (C11_cadence samplePlayingDouble ((Reachable.new true).run _)).2.2.1 2 (by decide)
      (by norm_num),
    ((C11_cadence samplePlayingDouble ((Reachable.new true).run _)).2.2.2.2 (by decide)).1⟩

/-! ## Reset, and commands without a log (C12, C13) -/

/-- C12. In every reachable state `resetReplay` discards the log, sets the play
flag to `false`, puts the index back to the 0 of the constructor, clears the
interval handle and leaves no interval running, so that a tick after it changes
nothing. -/
theorem C12_reset (s : State) (hr : Reachable s) :
    (resetReplay s).replayData = none ∧
    (¬ ∃ events, Loaded (resetReplay s) events) ∧
    (resetReplay s).isPlaying = false ∧
    (resetReplay s).currentEventIndex = 0 ∧
    (resetReplay s).currentEventIndex = (new s.display_thinking).currentEventIndex ∧
    (resetReplay s).intervalId = none ∧
    (resetReplay s).timers = [] ∧
    tick (resetReplay s) = resetReplay s := by
  have ha := hr.tickerAgrees
  have hd : (resetReplay s).replayData = none := resetReplay_replayData s
  have hp : (resetReplay s).isPlaying = false := by
    unfold resetReplay
    cases s.intervalId <;> simp [clearInterval]
  have hi : (resetReplay s).currentEventIndex = 0 := by
    unfold resetReplay
    cases s.intervalId <;> simp [clearInterval]
  have hstop := (resetReplay_agrees s ha).2 hp
  refine ⟨hd, ?_, hp, hi, hi, hstop.1, hstop.2, tick_of_no_timers _ hstop.2⟩
  rintro ⟨events, data, hd', _⟩
  rw [hd] at hd'
  cases hd'

theorem C12_reset_witness :
    Reachable samplePlayingAtEnd ∧ samplePlayingAtEnd.isPlaying = true ∧
      samplePlayingAtEnd.timers ≠ [] ∧
      (resetReplay samplePlayingAtEnd).replayData = none ∧
      (resetReplay samplePlayingAtEnd).isPlaying = false ∧
      (resetReplay samplePlayingAtEnd).timers = [] :=
  ⟨(Reachable.new true).run _, by decide, by decide,
    (C12_reset samplePlayingAtEnd ((Reachable.new true).run _)).1,
    (C12_reset samplePlayingAtEnd ((Reachable.new true).run _)).2.2.1,
    (C12_reset samplePlayingAtEnd ((Reachable.new true).run _)).2.2.2.2.2.2.1⟩

/-- C13. When `replayData` is `null`, or its `events` array is empty,
`nextEvent`, `previousEvent` and `seekTo(v)` for every `v` return without
throwing and leave the whole state as it is, and `togglePlayPause` returns
without throwing and leaves the state as it is but for the message box that asks
to load a replay first: the index, the play flag, the speed, the log, the
interval handle, the running intervals and the calls made on `ui` are those of
before the call. -/
theorem C13_no_log_no_op (s : State)
    (h : s.replayData = none ∨ ∃ data, s.replayData = some data ∧ data.events = some []) :
    nextEvent s = ⟨s, false⟩ ∧
    previousEvent s = ⟨s, false⟩ ∧
    (∀ v, seekTo v s = ⟨s, false⟩) ∧
    togglePlayPause s = ⟨{ s with notices := s.notices ++ [Notice.needData] }, false⟩ ∧
    (togglePlayPause s).state.currentEventIndex = s.currentEventIndex ∧
    (togglePlayPause s).state.isPlaying = s.isPlaying ∧
    (togglePlayPause s).state.playbackSpeed = s.playbackSpeed ∧
    (togglePlayPause s).state.replayData = s.replayData ∧
    (togglePlayPause s).state.intervalId = s.intervalId ∧
    (togglePlayPause s).state.timers = s.timers ∧
    (togglePlayPause s).state.calls = s.calls := by
  have ht : togglePlayPause s =
      ⟨{ s with notices := s.notices ++ [Notice.needData] }, false⟩ := by
    rcases h with h | ⟨data, hd, he⟩
    · simp [togglePlayPause, h, alert]
    · simp [togglePlayPause, hd, he, alert]
  refine ⟨?_, ?_, ?_, ht, ?_⟩
  · rcases h with h | ⟨data, hd, he⟩
    · simp [nextEvent, h]
    · simp [nextEvent, hd, he]
  · rcases h with h | ⟨data, hd, he⟩
    · simp [previousEvent, h]
    · simp [previousEvent, hd, he]
  · intro v
    rcases h with h | ⟨data, hd, he⟩
    · simp [seekTo, h]
    · simp [seekTo, hd, he]
  · rw [ht]
    exact ⟨rfl, rfl, rfl, rfl, rfl, rfl, rfl⟩

theorem C13_no_log_no_op_witness :
    ((new true).replayData = none ∨
      ∃ data, (new true).replayData = some data ∧ data.events = some []) ∧
    (sampleEmptyLoaded.replayData = none ∨
      ∃ data, sampleEmptyLoaded.replayData = some data ∧ data.events = some []) ∧
    nextEvent (new true) = ⟨new true, false⟩ ∧
    seekTo (JSNum.fin 1) sampleEmptyLoaded = ⟨sampleEmptyLoaded, false⟩ ∧
    (togglePlayPause sampleEmptyLoaded).state.isPlaying = sampleEmptyLoaded.isPlaying :=
  ⟨Or.inl rfl, Or.inr ⟨emptyLogData, by decide, rfl⟩,
    (C13_no_log_no_op (new true) (Or.inl rfl)).1,
    (C13_no_log_no_op sampleEmptyLoaded (Or.inr ⟨emptyLogData, by decide, rfl⟩)).2.2.1
      (JSNum.fin 1),
    (C13_no_log_no_op sampleEmptyLoaded
      (Or.inr ⟨emptyLogData, by decide, rfl⟩)).2.2.2.2.2.1⟩

/-! ## What is dispatched (C14, C15, C16) -/

/-- C14 as stated fails.  A fresh controller that loads the sample replay, which
starts with `game_start`, has made no call on `ui` (no `showDay`) and still
shows the text it showed before the load, not the description of event 0. -/
theorem C14_counterexample :
    sampleData.error.truthy = false ∧ sampleData.events = some sampleEvents ∧
      sampleEvents.head? = some sampleStart ∧
      sampleLoaded = loadReplayData (FetchResult.json sampleData) (new true) ∧
      sampleLoaded.currentEventIndex = 0 ∧
      sampleLoaded.calls = [] ∧
      sampleLoaded.currentEventText = waitingText ∧
      sampleLoaded.currentEventText ≠
        (executeEvent (some sampleStart) (new true)).state.currentEventText ∧
      sampleLoaded.calls ≠ (executeEvent (some sampleStart) (new true)).state.calls := by
  decide

/-- C14, amended.  A load that succeeds dispatches nothing: the calls made on
`ui` and the description of the current event are those of before the call, and
only the progress display is refreshed, to event 1 of `events.length`.  On a
fresh controller no call has been made and the description is still the text
that waits for a replay. -/
theorem C14_load_dispatches_nothing (s : State) (data : ReplayData) (events : List Event)
    (herr : data.error.truthy = false) (hev : data.events = some events) :
    (loadReplayData (FetchResult.json data) s).calls = s.calls ∧
    (loadReplayData (FetchResult.json data) s).currentEventText = s.currentEventText ∧
    (loadReplayData (FetchResult.json data) s).progressValue = 0 ∧
    (loadReplayData (FetchResult.json data) s).progressText = (1, (events.length : Int)) ∧
    (∀ b, s = new b →
      (loadReplayData (FetchResult.json data) s).calls = [] ∧
      (loadReplayData (FetchResult.json data) s).currentEventText = waitingText) := by
  refine ⟨?_, ?_, ?_, ?_, ?_⟩
  · simp [loadReplayData, herr, updateProgressDisplay, hev, alert, showReplayControls]
  · simp [loadReplayData, herr, updateProgressDisplay, hev, alert, showReplayControls]
  · simp [loadReplayData, herr, updateProgressDisplay, hev, alert, showReplayControls]
  · simp [loadReplayData, herr, updateProgressDisplay, hev, alert, showReplayControls]
  · intro b hb
    subst hb
    simp [loadReplayData, herr, updateProgressDisplay, hev, alert, showReplayControls,
      ReplayController.new]

theorem C14_load_dispatches_nothing_witness :
    sampleData.error.truthy = false ∧ sampleData.events = some sampleEvents ∧
      (loadReplayData (FetchResult.json sampleData) (new true)).calls = (new true).calls ∧
      (loadReplayData (FetchResult.json sampleData) (new true)).currentEventText =
        waitingText :=
  ⟨by decide, rfl,
    (C14_load_dispatches_nothing (new true) sampleData sampleEvents (by decide) rfl).1,
    ((C14_load_dispatches_nothing (new true) sampleData sampleEvents (by decide)
      rfl).2.2.2.2 true rfl).2⟩

theorem switch_kill (display_thinking : Bool) (e : Event)
    (h : e.type = JsVal.str "kill" ∨ e.type = JsVal.str "execute") :
    ∃ text, executeEvent.switch display_thinking e =
      some ([UiCall.killPlayer e.player_idx], text) := by
  rcases h with h | h
  · exact ⟨[Piece.lit "💀 ", Piece.val e.player_idx, Piece.lit "号玩家被杀"],
      by simp [executeEvent.switch, h]⟩
  · exact ⟨[Piece.lit "⚖️ ", Piece.val e.player_idx, Piece.lit "号玩家被处决"],
      by simp [executeEvent.switch, h]⟩

theorem nextEvent_at (t : State) (data : ReplayData) (events : List Event) (e : Event)
    (hd : t.replayData = some data) (he : data.events = some events)
    (i : Nat) (hi : t.currentEventIndex = i) (hget : events.get? (i + 1) = some e) :
    nextEvent t =
      updateProgressDisplay (executeEvent (some e)
        { t with currentEventIndex := (i : Int) + 1 }).state := by
  have hlt : i + 1 < events.length := by
    by_contra hc
    rw [List.get?_eq_none.mpr (by omega)] at hget
    cases hget
  have hlen : events.length ≠ 0 := by omega
  have hlt' : (i : Int) < (events.length : Int) - 1 := by omega
  have h0 : (0 : Int) ≤ (i : Int) + 1 := by omega
  have hnat : ((i : Int) + 1).toNat = i + 1 := by omega
  simp only [nextEvent, hd, he, hlen, hi, hlt', if_true, if_false, eventAt, h0, hnat, hget]

theorem nextEvent_at_last (t : State) (data : ReplayData) (events : List Event)
    (hd : t.replayData = some data) (he : data.events = some events)
    (hi : t.currentEventIndex = (events.length : Int) - 1) :
    nextEvent t = ⟨t, false⟩ := by
  simp [nextEvent, hd, he, hi]

theorem executeEvent_calls_of_switch (e : Event) (t : State) (calls : List UiCall)
    (text : Text) (h : executeEvent.switch t.display_thinking e = some (calls, text)) :
    (executeEvent (some e) t).threw = false ∧
    (executeEvent (some e) t).state.calls = t.calls ++ calls ∧
    (executeEvent (some e) t).state.currentEventText = text := by
  simp [executeEvent, h]

/-- C15. With the three sample events `game_start`, `speak` of player 2 saying
"hi" and `kill` of player 2 loaded and the index at 0, the first `nextEvent`
moves to index 1 and makes one call, `speak` with text "hi"; the second moves to
index 2 and makes one call, `killPlayer(2)`; the third returns the state it was
given, index 2.  For every event of type `kill` or `execute` the calls of
`executeEvent` are the single call `killPlayer(player_idx)`. -/
theorem C15_three_events (s : State) (data : ReplayData)
    (hd : s.replayData = some data) (he : data.events = some sampleEvents)
    (hi : s.currentEventIndex = 0) :
    (nextEvent s).state.currentEventIndex = 1 ∧
    (nextEvent s).state.calls = s.calls ++
      [UiCall.speak [Piece.val (JsVal.num (JSNum.fin 2)), Piece.lit "号玩家"] true
        (JsVal.str "hi") none] ∧
    (nextEvent (nextEvent s).state).state.currentEventIndex = 2 ∧
    (nextEvent (nextEvent s).state).state.calls =
      (nextEvent s).state.calls ++ [UiCall.killPlayer (JsVal.num (JSNum.fin 2))] ∧
    nextEvent (nextEvent (nextEvent s).state).state =
      ⟨(nextEvent (nextEvent s).state).state, false⟩ ∧
    (nextEvent (nextEvent (nextEvent s).state).state).state.currentEventIndex = 2 ∧
    (∀ (t : State) (e : Event),
      e.type = JsVal.str "kill" ∨ e.type = JsVal.str "execute" →
      (executeEvent (some e) t).threw = false ∧
      (executeEvent (some e) t).state.calls = t.calls ++ [UiCall.killPlayer e.player_idx]) := by
  have step1 : ∀ t : State, t.replayData = some data → t.currentEventIndex = 0 →
      (nextEvent t).state.replayData = some data ∧
      (nextEvent t).state.currentEventIndex = 1 ∧
      (nextEvent t).state.calls = t.calls ++
        [UiCall.speak [Piece.val (JsVal.num (JSNum.fin 2)), Piece.lit "号玩家"] true
          (JsVal.str "hi") none] := by
    intro t htd hti
    rw [nextEvent_at t data sampleEvents sampleSpeak htd he 0 (by simpa using hti) rfl]
    refine ⟨by simpa using htd, by simp, ?_⟩
    simp [executeEvent, executeEvent.switch, sampleSpeak, thinkingCalls, noData, JsVal.truthy]
  have step2 : ∀ t : State, t.replayData = some data → t.currentEventIndex = 1 →
      (nextEvent t).state.replayData = some data ∧
      (nextEvent t).state.currentEventIndex = 2 ∧
      (nextEvent t).state.calls =
        t.calls ++ [UiCall.killPlayer (JsVal.num (JSNum.fin 2))] := by
    intro t htd hti
    rw [nextEvent_at t data sampleEvents sampleKill htd he 1 (by simpa using hti) rfl]
    refine ⟨by simpa using htd, by simp, ?_⟩
    simp [executeEvent, executeEvent.switch, sampleKill]
  obtain ⟨hd1, hi1, hc1⟩ := step1 s hd hi
  obtain ⟨hd2, hi2, hc2⟩ := step2 (nextEvent s).state hd1 hi1
  have h3 : nextEvent (nextEvent (nextEvent s).state).state =
      ⟨(nextEvent (nextEvent s).state).state, false⟩ :=
    nextEvent_at_last _ data sampleEvents hd2 he (by rw [hi2]; rfl)
  refine ⟨hi1, hc1, hi2, hc2, h3, ?_, ?_⟩
  · rw [h3]; exact hi2
  · intro t e hk
    obtain ⟨text, ht⟩ := switch_kill t.display_thinking e hk
    exact ⟨(executeEvent_calls_of_switch e t _ text ht).1,
      (executeEvent_calls_of_switch e t _ text ht).2.1⟩

theorem C15_three_events_witness :
    sampleLoaded.replayData = some sampleData ∧ sampleData.events = some sampleEvents ∧
      sampleLoaded.currentEventIndex = 0 ∧
      (nextEvent sampleLoaded).state.currentEventIndex = 1 ∧
      (nextEvent (nextEvent sampleLoaded).state).state.currentEventIndex = 2 :=
  ⟨by decide, rfl, by decide,
    (C15_three_events sampleLoaded sampleData (by decide) rfl (by decide)).1,
    (C15_three_events sampleLoaded sampleData (by decide) rfl (by decide)).2.2.1⟩

/-- C16. For every event whose type is none of `game_start`, `day_change`,
`speak`, `vote`, `divine`, `wolf_kill`, `witch_decision`, `kill` and `execute`,
with or without a `data` object, `executeEvent` does not throw, makes no call on
`ui`, and writes the description made of the type and of `player_idx`; nothing
else in the state changes. -/
theorem C16_unrecognized_type (s : State) (e : Event)
    (h1 : e.type ≠ JsVal.str "game_start") (h2 : e.type ≠ JsVal.str "day_change")
    (h3 : e.type ≠ JsVal.str "speak") (h4 : e.type ≠ JsVal.str "vote")
    (h5 : e.type ≠ JsVal.str "divine") (h6 : e.type ≠ JsVal.str "wolf_kill")
    (h7 : e.type ≠ JsVal.str "witch_decision") (h8 : e.type ≠ JsVal.str "kill")
    (h9 : e.type ≠ JsVal.str "execute") :
    (executeEvent (some e) s).threw = false ∧
    (executeEvent (some e) s).state.calls = s.calls ∧
    (executeEvent (some e) s).state.currentEventText =
      [Piece.lit "📝 ", Piece.val e.type, Piece.lit ": 玩家", Piece.val e.player_idx] ∧
    (executeEvent (some e) s).state =
      { s with currentEventText :=
          [Piece.lit "📝 ", Piece.val e.type, Piece.lit ": 玩家", Piece.val e.player_idx] } := by
  have hsw : executeEvent.switch s.display_thinking e =
      some ([], [Piece.lit "📝 ", Piece.val e.type, Piece.lit ": 玩家",
        Piece.val e.player_idx]) := by
    simp [executeEvent.switch, h1, h2, h3, h4, h5, h6, h7, h8, h9]
  simp [executeEvent, hsw]

theorem C16_unrecognized_type_witness :
    (executeEvent (some sampleUnknown) sampleLoaded).threw = false ∧
      (executeEvent (some sampleUnknown) sampleLoaded).state.calls = sampleLoaded.calls ∧
      (executeEvent (some sampleUnknown) sampleLoaded).state.currentEventText =
        [Piece.lit "📝 ", Piece.val (JsVal.str "sheriff_election"), Piece.lit ": 玩家",
          Piece.val (JsVal.num (JSNum.fin 4))] :=
  ⟨(C16_unrecognized_type sampleLoaded sampleUnknown (by decide) (by decide) (by decide)
      (by decide) (by decide) (by decide) (by decide) (by decide) (by decide)).1,
    (C16_unrecognized_type sampleLoaded sampleUnknown (by decide) (by decide) (by decide)
      (by decide) (by decide) (by decide) (by decide) (by decide) (by decide)).2.1,
    (C16_unrecognized_type sampleLoaded sampleUnknown (by decide) (by decide) (by decide)
      (by decide) (by decide) (by decide) (by decide) (by decide) (by decide)).2.2.1⟩

/-! ## The calls of `executeEvent` (C17, C18, C19) -/

/-- C17 as stated fails.  A `speak` event of player 2 whose `thinking` field is
there, holding the empty string, gets the single call `speak` even though `ui`
shows thinking: not the four calls that the claim gives an event whose
`thinking` is present. -/
theorem C17_counterexample :
    speakEmptyThinking.type = JsVal.str "speak" ∧
      speakEmptyThinking.data.map (fun d => d.thinking) = some (JsVal.str "") ∧
      speakEmptyThinking.data.map (fun d => d.thinking) ≠ some JsVal.undefined ∧
      (executeEvent (some speakEmptyThinking) (new true)).threw = false ∧
      (new true).display_thinking = true ∧
      (executeEvent (some speakEmptyThinking) (new true)).state.calls =
        [UiCall.speak [Piece.val (JsVal.num (JSNum.fin 2)), Piece.lit "号玩家"] true
          (JsVal.str "hi") none] ∧
      (executeEvent (some speakEmptyThinking) (new true)).state.calls ≠
        [UiCall.showPlayer (JsVal.num (JSNum.fin 2)),
         UiCall.speak [Piece.val (JsVal.num (JSNum.fin 2)), Piece.lit "号玩家 思考中"] true
          (JsVal.str "") (some true),
         UiCall.hidePlayer,
         UiCall.speak [Piece.val (JsVal.num (JSNum.fin 2)), Piece.lit "号玩家"] true
          (JsVal.str "hi") none] := by
  decide

/-- C17, amended.  For every `speak` event of player `N` with a `data` object,
the calls of `executeEvent` are, in this order, `showPlayer(N)`, `speak` of the
thinking label and `data.thinking` with `isThought = true`, `hidePlayer()` and
`speak` of the label of `N` and `data.speak`, when `data.thinking` is truthy and
`ui.display_thinking` is set; otherwise they are the last of these alone.  For
every `vote` event they are the same three calls under the same condition, then
`showVote(N, data.vote)`. -/
theorem C17_speak_vote_calls (s : State) (e : Event) (d : EventData)
    (hd : e.data = some d) :
    (e.type = JsVal.str "speak" →
      (executeEvent (some e) s).threw = false ∧
      (d.thinking.truthy = true ∧ s.display_thinking = true →
        (executeEvent (some e) s).state.calls = s.calls ++
          [UiCall.showPlayer e.player_idx,
           UiCall.speak [Piece.val e.player_idx, Piece.lit "号玩家 思考中"] true d.thinking
            (some true),
           UiCall.hidePlayer,
           UiCall.speak [Piece.val e.player_idx, Piece.lit "号玩家"] true d.speak none]) ∧
      (¬ (d.thinking.truthy = true ∧ s.display_thinking = true) →
        (executeEvent (some e) s).state.calls = s.calls ++
          [UiCall.speak [Piece.val e.player_idx, Piece.lit "号玩家"] true d.speak none])) ∧
    (e.type = JsVal.str "vote" →
      (executeEvent (some e) s).threw = false ∧
      (d.thinking.truthy = true ∧ s.display_thinking = true →
        (executeEvent (some e) s).state.calls = s.calls ++
          [UiCall.showPlayer e.player_idx,
           UiCall.speak [Piece.val e.player_idx, Piece.lit "号玩家 思考中"] true d.thinking
            (some true),
           UiCall.hidePlayer,
           UiCall.showVote e.player_idx d.vote]) ∧
      (¬ (d.thinking.truthy = true ∧ s.display_thinking = true) →
        (executeEvent (some e) s).state.calls = s.calls ++
          [UiCall.showVote e.player_idx d.vote])) := by
  constructor
  · intro ht
    refine ⟨?_, ?_, ?_⟩
    · simp [executeEvent, executeEvent.switch, ht, hd]
    · rintro ⟨h1, h2⟩
      simp [executeEvent, executeEvent.switch, ht, hd, thinkingCalls, h1, h2]
    · intro hn
      have hc : d.thinking.truthy = true → s.display_thinking = false := by
        intro h1
        cases h2 : s.display_thinking
        · rfl
        · exact absurd ⟨h1, h2⟩ hn
      simpa [executeEvent, executeEvent.switch, ht, hd, thinkingCalls] using hc
  · intro ht
    refine ⟨?_, ?_, ?_⟩
    · simp [executeEvent, executeEvent.switch, ht, hd]
    · rintro ⟨h1, h2⟩
      simp [executeEvent, executeEvent.switch, ht, hd, thinkingCalls, h1, h2]
    · intro hn
      have hc : d.thinking.truthy = true → s.display_thinking = false := by
        intro h1
        cases h2 : s.display_thinking
        · rfl
        · exact absurd ⟨h1, h2⟩ hn
      simpa [executeEvent, executeEvent.switch, ht, hd, thinkingCalls] using hc

theorem C17_speak_vote_calls_witness :
    speakThinking.type = JsVal.str "speak" ∧
      (executeEvent (some speakThinking) (new true)).state.calls = (new true).calls ++
        [UiCall.showPlayer (JsVal.num (JSNum.fin 2)),
         UiCall.speak [Piece.val (JsVal.num (JSNum.fin 2)), Piece.lit "号玩家 思考中"] true
          (JsVal.str "hm") (some true),
         UiCall.hidePlayer,
         UiCall.speak [Piece.val (JsVal.num (JSNum.fin 2)), Piece.lit "号玩家"] true
          (JsVal.str "hi") none] ∧
      (executeEvent (some voteBare) (new true)).state.calls = (new true).calls ++
        [UiCall.showVote JsVal.undefined JsVal.undefined] :=
  ⟨rfl,
    ((C17_speak_vote_calls (new true) speakThinking _ rfl).1 rfl).2.1 ⟨by decide, rfl⟩,
    ((C17_speak_vote_calls (new true) voteBare _ rfl).2 rfl).2.2 (by decide)⟩

/-- C18, the code at the failing inputs.  With `ui` showing thinking, a
`wolf_kill` event that has a `reason` and no `thinking` gets no call at all,
and a `wolf_kill` event that has a `thinking` and no `reason` gets the three
calls, `speak` being given `undefined` as its text: the three calls are made
when `data.thinking` is truthy, not when `data.reason` is. -/
theorem C18_wolf_kill_gate :
    wolfKillReason.type = JsVal.str "wolf_kill" ∧
      wolfKillReason.data.map (fun d => d.reason) = some (JsVal.str "5 suspects me") ∧
      (new true).display_thinking = true ∧
      (executeEvent (some wolfKillReason) (new true)).state.calls = [] ∧
      wolfKillThinking.type = JsVal.str "wolf_kill" ∧
      wolfKillThinking.data.map (fun d => d.reason) = some JsVal.undefined ∧
      (executeEvent (some wolfKillThinking) (new true)).state.calls =
        [UiCall.showPlayer (JsVal.num (JSNum.fin 3)),
         UiCall.speak [Piece.val (JsVal.num (JSNum.fin 3)), Piece.lit "号狼人 思考中"] true
          JsVal.undefined (some true),
         UiCall.hidePlayer] := by
  decide

theorem switch_of_data (display_thinking : Bool) (e : Event) (d : EventData)
    (hd : e.data = some d) :
    (executeEvent.switch display_thinking e).isSome = true := by
  unfold executeEvent.switch
  rw [hd]
  repeat' split
  all_goals rfl

theorem switch_without_thinking (display_thinking : Bool) (e : Event) (d : EventData)
    (hd : e.data = some d) (hu : d.thinking = JsVal.undefined) :
    executeEvent.switch display_thinking e = executeEvent.switch false e := by
  simp [executeEvent.switch, hd, thinkingCalls, hu, JsVal.truthy]

theorem switch_false_calls (e : Event) :
    ∀ p ∈ executeEvent.switch false e,
      UiCall.hidePlayer ∉ p.1 ∧
      (∀ v, UiCall.showPlayer v ∉ p.1) ∧
      (∀ l b t, UiCall.speak l b t (some true) ∉ p.1) := by
  generalize hQ : (fun o : Option (List UiCall × Text) => ∀ p ∈ o,
      UiCall.hidePlayer ∉ p.1 ∧
      (∀ v, UiCall.showPlayer v ∉ p.1) ∧
      (∀ l b t, UiCall.speak l b t (some true) ∉ p.1)) = Q
  have hgoal : Q (executeEvent.switch false e) := by
    unfold executeEvent.switch
    repeat' split
    all_goals
      subst hQ
      intro p hp
      first
        | (simp only [Option.mem_def, Option.map_eq_some'] at hp
           obtain ⟨d, _, rfl⟩ := hp
           by_cases hc : d.phase.strictEq (JsVal.str "day") = true <;>
             simp [thinkingCalls, hc])
        | (simp only [Option.mem_def, Option.some.injEq] at hp
           subst hp
           simp)
  subst hQ
  exact hgoal

/-- C19. For every event that has a `data` object, whatever its type, whatever
its `player_idx` (`undefined` too) and whichever fields of `data` are
`undefined`, `executeEvent` does not throw and writes a description.  When
`data.thinking` is `undefined`, none of the calls it makes is `showPlayer`,
`hidePlayer` or a `speak` with `isThought` set, and the calls are those made
for a `ui` that does not show thinking. -/
theorem C19_dispatch_total (s : State) (e : Event) (d : EventData)
    (hd : e.data = some d) :
    (executeEvent (some e) s).threw = false ∧
    (∃ calls text, executeEvent.switch s.display_thinking e = some (calls, text) ∧
      (executeEvent (some e) s).state.calls = s.calls ++ calls ∧
      (executeEvent (some e) s).state.currentEventText = text ∧
      (d.thinking = JsVal.undefined →
        executeEvent.switch false e = some (calls, text) ∧
        UiCall.hidePlayer ∉ calls ∧
        (∀ v, UiCall.showPlayer v ∉ calls) ∧
        (∀ l b t, UiCall.speak l b t (some true) ∉ calls))) := by
  cases hsw : executeEvent.switch s.display_thinking e with
  | none =>
    have h := switch_of_data s.display_thinking e d hd
    rw [hsw] at h
    cases h
  | some p =>
    obtain ⟨h1, h2, h3⟩ := executeEvent_calls_of_switch e s p.1 p.2 hsw
    refine ⟨h1, p.1, p.2, rfl, h2, h3, ?_⟩
    intro hu
    have hf : executeEvent.switch false e = some p := by
      rw [← switch_without_thinking s.display_thinking e d hd hu]
      exact hsw
    exact ⟨hf, switch_false_calls e p hf⟩

theorem C19_dispatch_total_witness :
    voteBare.data = some noData ∧ voteBare.player_idx = JsVal.undefined ∧
      (executeEvent (some voteBare) (new true)).threw = false :=
  ⟨rfl, rfl, (C19_dispatch_total (new true) voteBare noData rfl).1⟩

/-! ## The play flag and the interval agree (C20) -/

theorem startPlayback_timers (s : State) :
    (startPlayback s).intervalId = some s.nextTimerId ∧
    (∀ id, s.intervalId = some id →
      (startPlayback s).timers =
        (clearInterval id s).timers ++
          [⟨s.nextTimerId, s.baseInterval.div s.playbackSpeed⟩]) ∧
    (s.intervalId = none →
      (startPlayback s).timers =
        s.timers ++ [⟨s.nextTimerId, s.baseInterval.div s.playbackSpeed⟩]) := by
  refine ⟨?_, ?_, ?_⟩
  · unfold startPlayback
    cases s.intervalId <;> simp [setInterval, clearInterval]
  · intro id hi
    simp [startPlayback, hi, setInterval, clearInterval]
  · intro hi
    simp [startPlayback, hi, setInterval]

/-- C20. In every state a constructed controller can reach, the play flag is
`true` exactly when a handle is stored in `intervalId`, and exactly when an
interval is running; at most one interval is running, and it is the one whose
handle is stored.  In any state `startPlayback` first clears the interval of the
stored handle and then starts the new one, whose handle it stores. -/
theorem C20_flag_and_ticker (s : State) (hr : Reachable s) :
    (s.isPlaying = true ↔ s.intervalId ≠ none) ∧
    (s.isPlaying = true ↔ s.timers ≠ []) ∧
    s.timers.length ≤ 1 ∧
    (∀ t ∈ s.timers, s.intervalId = some t.id) ∧
    (startPlayback s).timers.length = 1 ∧
    (∀ (u : State) (id : Nat), u.intervalId = some id →
      (startPlayback u).timers =
        (u.timers.filter fun t => decide (t.id ≠ id)) ++
          [⟨u.nextTimerId, u.baseInterval.div u.playbackSpeed⟩] ∧
      (startPlayback u).intervalId = some u.nextTimerId) := by
  have ha := hr.tickerAgrees
  have hlast : ∀ (u : State) (id : Nat), u.intervalId = some id →
      (startPlayback u).timers =
        (u.timers.filter fun t => decide (t.id ≠ id)) ++
          [⟨u.nextTimerId, u.baseInterval.div u.playbackSpeed⟩] ∧
      (startPlayback u).intervalId = some u.nextTimerId := by
    intro u id hu
    exact ⟨(startPlayback_timers u).2.1 id hu, (startPlayback_timers u).1⟩
  cases hp : s.isPlaying with
  | true =>
    obtain ⟨id, interval, hi, ht⟩ := ha.1 hp
    refine ⟨by simp [hi], by simp [ht], by simp [ht], ?_, ?_, hlast⟩
    · intro t htm
      rw [ht] at htm
      simp at htm
      rw [htm, hi]
    · rw [(startPlayback_timers s).2.1 id hi]
      simp [clearInterval, ht]
  | false =>
    obtain ⟨hi, ht⟩ := ha.2 hp
    refine ⟨by simp [hi], by simp [ht], by simp [ht], ?_, ?_, hlast⟩
    · intro t htm
      rw [ht] at htm
      cases htm
    · rw [(startPlayback_timers s).2.2 hi]
      simp [ht]

theorem C20_flag_and_ticker_witness :
    Reachable samplePlayingDouble ∧
      (samplePlayingDouble.isPlaying = true ↔ samplePlayingDouble.intervalId ≠ none) ∧
      samplePlayingDouble.timers.length ≤ 1 ∧
      samplePlayingDouble.isPlaying = true ∧ samplePlayingDouble.timers.length = 1 :=
  ⟨(Reachable.new true).run _,
    (C20_flag_and_ticker samplePlayingDouble ((Reachable.new true).run _)).1,
    (C20_flag_and_ticker samplePlayingDouble ((Reachable.new true).run _)).2.2.1,
    by decide, by decide⟩

end ReplayController
